import Mathlib

/-!
Verification development for the landlock risk-analysis core.

JavaScript numbers are idealized as exact rationals; `Math.round` is
modelled as `jsRound q = ⌊q + 1/2⌋` (round half toward positive
infinity, matching JS). Dates and wall-clock durations are outside the
embedding; the "current year" used for recency windows is passed as an
explicit parameter. String templates that only interpolate already
modelled values are represented by tagged inductive types carrying the
interpolated values, so that distinct messages stay distinct without
reproducing JS number formatting.
-/

/-- JS Math.round: round half toward positive infinity. -/
def jsRound (q : ℚ) : ℤ := ⌊q + 1/2⌋

/-! ## Domain types (src/lib/types/hazard.ts) -/

inductive FireCause
  | lightning
  | human
  | unknown
deriving DecidableEq

inductive FireStatus
  | active
  | contained
  | out
deriving DecidableEq

/-- Historical wildfire perimeter record (fields read by the modelled code). -/
structure WildfirePerimeter where
  fireId : String
  fireName : String
  fireYear : ℤ
  areaBurnedHa : ℚ
  fireCentre : String
  fireZone : String
  cause : FireCause
  status : FireStatus
deriving DecidableEq

/-- Yearly aggregate wildfire statistics (fields read by the modelled code). -/
structure WildfireStatistics where
  year : ℤ
  fireCentre : String
  totalFires : ℕ
  totalAreaBurnedHa : ℚ
  averageFireSizeHa : ℚ
  lightningCaused : ℕ
  humanCaused : ℕ
  structuresDestroyed : ℚ
  estimatedCost : ℚ
deriving DecidableEq

inductive ZoningCategory
  | residential_single
  | residential_multi
  | commercial
  | industrial
  | mixed_use
  | agricultural
  | parkland
  | institutional
  | rural
  | undeveloped
deriving DecidableEq

inductive DevelopmentStatus
  | developed
  | underdeveloped
  | undeveloped
deriving DecidableEq

/-- Municipal zoning record (fields read by the modelled code). -/
structure ZoningRegion where
  id : String
  municipality : String
  zoningCode : String
  zoningCategory : ZoningCategory
  areaHa : ℚ
  developmentStatus : DevelopmentStatus
deriving DecidableEq

inductive RiskCategory
  | low
  | moderate
  | high
  | very_high
  | extreme
deriving DecidableEq

structure RiskComponents where
  wildfireExposure : ℤ
  historicalLoss : ℤ
  vulnerabilityIndex : ℤ
  climateProjection : ℤ
  mitigationFactor : ℤ
deriving DecidableEq

/-- Computed risk score (calculatedAt/validUntil timestamps are outside the embedding). -/
structure RiskScore where
  regionId : String
  overallScore : ℤ
  category : RiskCategory
  components : RiskComponents
  confidence : ℚ
deriving DecidableEq

/-! ## InsuranceRiskAnalystAgent — analysis records
(src/lib/agents/data-analyst-agent.ts, class InsuranceRiskAnalystAgent) -/

inductive FireTrend
  | increasing
  | stable
  | decreasing
deriving DecidableEq

/-- One entry of the global ranking table (RiskRanking in hazard.ts);
updateGlobalRankings always writes trend stable and change 0. -/
structure RiskRanking where
  regionId : String
  regionName : String
  rank : ℕ
  score : ℤ
  trend : FireTrend
  changeFromLastPeriod : ℚ
deriving DecidableEq

structure ExposureAnalysis where
  totalFires : ℕ
  totalAreaBurnedHa : ℚ
  averageFireSizeHa : ℚ
  recentFires5yr : ℕ
  majorFiresCount : ℕ
  lightningCausedPercent : ℤ
  exposureScore : ℤ
  trend : FireTrend
deriving DecidableEq

inductive Volatility
  | low
  | moderate
  | high
deriving DecidableEq

structure LossAnalysis where
  totalSuppresionCost : ℚ
  averageAnnualCost : ℚ
  totalStructuresDestroyed : ℚ
  peakLossYear : ℤ
  peakLossAmount : ℚ
  lossScore : ℤ
  volatility : Volatility
deriving DecidableEq

structure VulnerabilityAnalysis where
  totalZones : ℕ
  developedPercent : ℤ
  residentialPercent : ℤ
  estimatedExposureValue : ℚ
  vulnerabilityScore : ℤ
  highRiskZones : List String
deriving DecidableEq

namespace InsuranceRiskAnalystAgent

/-- Exposure assessment from historical fire perimeters.
`currentYear` stands for `new Date().getFullYear()`. Empty input is
assigned the fixed floor score 10. -/
def assessWildfireExposure (currentYear : ℤ) (fires : List WildfirePerimeter) :
    ExposureAnalysis :=
  if fires.length = 0 then
    { totalFires := 0, totalAreaBurnedHa := 0, averageFireSizeHa := 0,
      recentFires5yr := 0, majorFiresCount := 0, lightningCausedPercent := 0,
      exposureScore := 10, trend := .stable }
  else
    let totalAreaBurnedHa : ℚ := fires.foldl (fun sum f => sum + f.areaBurnedHa) 0
    let averageFireSizeHa : ℚ := totalAreaBurnedHa / fires.length
    let recentFires5yr : ℕ := (fires.filter (fun f => currentYear - 5 ≤ f.fireYear)).length
    let majorFires := fires.filter (fun f => 1000 < f.areaBurnedHa)
    let lightningCausedPercent : ℤ :=
      jsRound ((((fires.filter (fun f => f.cause = .lightning)).length : ℚ) / fires.length) * 100)
    let areaScore : ℚ := min 40 (totalAreaBurnedHa / 50000 * 40)
    let frequencyScore : ℚ := min 30 ((recentFires5yr : ℚ) / 10 * 30)
    let majorEventScore : ℚ := min 30 ((majorFires.length : ℚ) / 5 * 30)
    let exposureScore : ℤ := jsRound (areaScore + frequencyScore + majorEventScore)
    let oldFires : ℕ := (fires.filter (fun f => f.fireYear < currentYear - 5)).length
    let recentRatio : ℚ := (recentFires5yr : ℚ) / (max 1 (oldFires : ℚ))
    let trend : FireTrend :=
      if 13/10 < recentRatio then .increasing
      else if recentRatio < 7/10 then .decreasing
      else .stable
    { totalFires := fires.length, totalAreaBurnedHa, averageFireSizeHa,
      recentFires5yr, majorFiresCount := majorFires.length,
      lightningCausedPercent, exposureScore, trend }

/-- Population variance of a list of values (square of the source's
`calculateStdDev`; kept squared so the development stays in ℚ). -/
def varianceOf (values : List ℚ) : ℚ :=
  if values.length = 0 then 0
  else
    let mean : ℚ := values.foldl (fun sum v => sum + v) 0 / values.length
    (values.map (fun v => (v - mean) ^ 2)).foldl (fun sum v => sum + v) 0 / values.length

/-- Volatility label from the coefficient of variation stdDev/mean
(high above 1.5, moderate above 0.7, else low). Stated with squared
comparisons, which agree with the source for mean > 0; for mean = 0 the
JS division yields Infinity (high) when stdDev > 0 and NaN (low)
otherwise, and for mean < 0 the ratio is nonpositive (low). -/
def volatilityOf (variance mean : ℚ) : Volatility :=
  if mean = 0 then (if 0 < variance then .high else .low)
  else if 0 < mean then
    if (3/2 * mean) ^ 2 < variance then .high
    else if (7/10 * mean) ^ 2 < variance then .moderate
    else .low
  else .low

/-- Historical loss analysis from yearly statistics. Empty input is
assigned the fixed floor score 15. -/
def analyzeHistoricalLosses (statistics : List WildfireStatistics) : LossAnalysis :=
  match statistics with
  | [] =>
      { totalSuppresionCost := 0, averageAnnualCost := 0,
        totalStructuresDestroyed := 0, peakLossYear := 0, peakLossAmount := 0,
        lossScore := 15, volatility := .low }
  | s0 :: _ =>
      let totalSuppresionCost : ℚ := statistics.foldl (fun sum s => sum + s.estimatedCost) 0
      let averageAnnualCost : ℚ := totalSuppresionCost / statistics.length
      let totalStructuresDestroyed : ℚ :=
        statistics.foldl (fun sum s => sum + s.structuresDestroyed) 0
      let maxLoss : WildfireStatistics :=
        statistics.foldl (fun m s => if m.estimatedCost < s.estimatedCost then s else m) s0
      let costScore : ℚ := min 50 (averageAnnualCost / 10000000 * 50)
      let structureScore : ℚ := min 30 (totalStructuresDestroyed / 100 * 30)
      let concentrationScore : ℚ := min 20 (maxLoss.estimatedCost / totalSuppresionCost * 40)
      let lossScore : ℤ := jsRound (costScore + structureScore + concentrationScore)
      let variance : ℚ := varianceOf (statistics.map (·.estimatedCost))
      { totalSuppresionCost, averageAnnualCost, totalStructuresDestroyed,
        peakLossYear := maxLoss.year, peakLossAmount := maxLoss.estimatedCost,
        lossScore, volatility := volatilityOf variance averageAnnualCost }

/-- Fixed $/ha table by zoning category (unknown categories fall back to 100000). -/
def valuePerHa : ZoningCategory → ℚ
  | .residential_single => 15000000
  | .residential_multi => 50000000
  | .commercial => 80000000
  | .industrial => 25000000
  | .mixed_use => 60000000
  | .agricultural => 500000
  | .parkland => 1000000
  | .institutional => 40000000
  | .rural => 200000
  | .undeveloped => 100000

/-- Vulnerability evaluation from zoning. Empty input is assigned the
fixed floor score 20. -/
def evaluateVulnerability (zones : List ZoningRegion) : VulnerabilityAnalysis :=
  if zones.length = 0 then
    { totalZones := 0, developedPercent := 0, residentialPercent := 0,
      estimatedExposureValue := 0, vulnerabilityScore := 20, highRiskZones := [] }
  else
    let developed := zones.filter (fun z => z.developmentStatus = .developed)
    let residential := zones.filter (fun z =>
      z.zoningCategory = .residential_single ∨ z.zoningCategory = .residential_multi)
    let developedPercent : ℤ := jsRound (((developed.length : ℚ) / zones.length) * 100)
    let residentialPercent : ℤ := jsRound (((residential.length : ℚ) / zones.length) * 100)
    let estimatedExposureValue : ℚ :=
      zones.foldl (fun sum z => sum + z.areaHa * valuePerHa z.zoningCategory) 0
    let highRiskZones := ((zones.filter (fun z => z.developmentStatus = .developed)).take 10).map (·.id)
    let developmentScore : ℚ := min 40 ((developedPercent : ℚ) / 100 * 40)
    let valueScore : ℚ := min 40 (estimatedExposureValue / 10000000000 * 40)
    let concentrationScore : ℚ := min 20 ((residentialPercent : ℚ) / 50 * 20)
    let vulnerabilityScore : ℤ := jsRound (developmentScore + valueScore + concentrationScore)
    { totalZones := zones.length, developedPercent, residentialPercent,
      estimatedExposureValue, vulnerabilityScore, highRiskZones }

/-- Score-to-category bands: below 20 low, below 40 moderate, below 60
high, below 80 very high, else extreme. -/
def scoreToCategory (score : ℤ) : RiskCategory :=
  if score < 20 then .low
  else if score < 40 then .moderate
  else if score < 60 then .high
  else if score < 80 then .very_high
  else .extreme

/-- Confidence: base 0.5 with additive bonuses, capped at 0.95. -/
def calculateConfidence (exposure : ExposureAnalysis) (loss : LossAnalysis)
    (vulnerability : VulnerabilityAnalysis) : ℚ :=
  let c0 : ℚ := 1/2
  let c1 := if 10 < exposure.totalFires then c0 + 15/100 else c0
  let c2 := if 0 < loss.totalSuppresionCost then c1 + 15/100 else c1
  let c3 := if 50 < vulnerability.totalZones then c2 + 1/10 else c2
  let c4 := if 0 < exposure.recentFires5yr then c3 + 1/10 else c3
  min (95/100) c4

/-- Weighted overall risk score: exposure 0.35, loss 0.30, vulnerability
0.25, climate 0.10 with climate fixed at 60; clamped to [0,100] and rounded. -/
def calculateRiskScore (regionId : String) (exposure : ExposureAnalysis)
    (loss : LossAnalysis) (vulnerability : VulnerabilityAnalysis) : RiskScore :=
  let climateScore : ℚ := 60
  let weightedScore : ℚ :=
    (exposure.exposureScore : ℚ) * (35/100) +
    (loss.lossScore : ℚ) * (30/100) +
    (vulnerability.vulnerabilityScore : ℚ) * (25/100) +
    climateScore * (10/100)
  let overallScore : ℤ := jsRound (max 0 (min 100 weightedScore))
  { regionId,
    overallScore,
    category := scoreToCategory overallScore,
    components :=
      { wildfireExposure := exposure.exposureScore,
        historicalLoss := loss.lossScore,
        vulnerabilityIndex := vulnerability.vulnerabilityScore,
        climateProjection := 60,
        mitigationFactor := 20 },
    confidence := calculateConfidence exposure loss vulnerability }

end InsuranceRiskAnalystAgent

/-! ## AutomationPipeline — risk scoring
(src/lib/services/automation-pipeline.ts) -/

namespace AutomationPipeline

/-- Pipeline wildfire exposure fraction: 0.1 floor for empty input, else
a 0.6/0.4 blend of burned-area and recent-fire saturation. -/
def calculateWildfireExposure (currentYear : ℤ) (fires : List WildfirePerimeter) : ℚ :=
  if fires.length = 0 then 1/10
  else
    let totalArea : ℚ := fires.foldl (fun sum f => sum + f.areaBurnedHa) 0
    let recentFires : ℕ := (fires.filter (fun f => currentYear - 5 ≤ f.fireYear)).length
    min 1 (totalArea / 100000) * (6/10) + min 1 ((recentFires : ℚ) / 20) * (4/10)

/-- Pipeline historical loss fraction: 0.1 floor for empty input, else a
0.7/0.3 blend of cost and structures-destroyed saturation. -/
def calculateHistoricalLoss (statistics : List WildfireStatistics) : ℚ :=
  if statistics.length = 0 then 1/10
  else
    let totalCost : ℚ := statistics.foldl (fun sum s => sum + s.estimatedCost) 0
    let totalStructures : ℚ := statistics.foldl (fun sum s => sum + s.structuresDestroyed) 0
    min 1 (totalCost / 500000000) * (7/10) + min 1 (totalStructures / 500) * (3/10)

/-- Pipeline vulnerability fraction: 0.5 floor for empty input, else
developed share times 0.8. -/
def calculateVulnerability (zones : List ZoningRegion) : ℚ :=
  if zones.length = 0 then 1/2
  else
    let developed : ℕ := (zones.filter (fun z => z.developmentStatus = .developed)).length
    ((developed : ℚ) / zones.length) * (8/10)

/-- Pipeline score-to-category bands (same thresholds as the agent crew). -/
def scoreToCategory (score : ℤ) : RiskCategory :=
  if score < 20 then .low
  else if score < 40 then .moderate
  else if score < 60 then .high
  else if score < 80 then .very_high
  else .extreme

/-- Pipeline risk score: the fractional sub-scores are scaled by weight×100,
the fixed climate score 60 only by its weight, then clamped and rounded. -/
def calculateRiskScore (currentYear : ℤ) (regionId : String)
    (fires : List WildfirePerimeter) (statistics : List WildfireStatistics)
    (zones : List ZoningRegion) : RiskScore :=
  let wildfireExposure : ℚ := calculateWildfireExposure currentYear fires
  let historicalLoss : ℚ := calculateHistoricalLoss statistics
  let vulnerabilityIndex : ℚ := calculateVulnerability zones
  let climateScore : ℚ := 60
  let weightedScore : ℚ :=
    wildfireExposure * (35/100) * 100 +
    historicalLoss * (30/100) * 100 +
    vulnerabilityIndex * (25/100) * 100 +
    climateScore * (10/100)
  let overallScore : ℤ := jsRound (max 0 (min 100 weightedScore))
  { regionId,
    overallScore,
    category := scoreToCategory overallScore,
    components :=
      { wildfireExposure := jsRound (wildfireExposure * 100),
        historicalLoss := jsRound (historicalLoss * 100),
        vulnerabilityIndex := jsRound (vulnerabilityIndex * 100),
        climateProjection := 60,
        mitigationFactor := 20 },
    confidence := 3/4 }

end AutomationPipeline

/-! ## AutomationPipeline — full pipeline run
(src/lib/services/automation-pipeline.ts, runFullPipeline / runStage) -/

inductive PipelineStage
  | pInit
  | wildfire_ingestion
  | zoning_ingestion
  | data_validation
  | risk_scoring
  | report_generation
  | state_sync
  | cleanup
deriving DecidableEq

/-- What a stage executor produced when it returned normally. -/
structure StageOutcome where
  recordsProcessed : ℕ
  errors : List String
  warnings : List String
deriving DecidableEq

/-- A stage executor either returns an outcome or throws.
The executors themselves perform external I/O and are modelled as inputs. -/
inductive ExecResult
  | ok (outcome : StageOutcome)
  | thrown (msg : String)
deriving DecidableEq

/-- Recorded result of one pipeline stage (duration is wall-clock time,
outside the embedding). -/
structure StageResult where
  stage : PipelineStage
  success : Bool
  recordsProcessed : ℕ
  errors : List String
  warnings : List String
deriving DecidableEq

namespace AutomationPipeline

/-- runStage: run the executor, catch any throw, and always record a
StageResult; success means the executor returned with no errors. -/
def runStage (stage : PipelineStage) (exec : ExecResult) : StageResult :=
  match exec with
  | .ok o =>
      { stage, success := o.errors.isEmpty, recordsProcessed := o.recordsProcessed,
        errors := o.errors, warnings := o.warnings }
  | .thrown msg =>
      { stage, success := false, recordsProcessed := 0, errors := [msg], warnings := [] }

/-- runFullPipeline over the stage executors (the initialization executor
is the literal `{recordsProcessed: 0, errors: [], warnings: []}` of the
source): risk_scoring runs only when both ingestion stages succeeded, and
the returned success flag is the conjunction of all recorded results. -/
def runFullPipeline (wildfire zoning validation scoring reports sync clean : ExecResult) :
    Bool × List StageResult :=
  let r0 := runStage .pInit (.ok { recordsProcessed := 0, errors := [], warnings := [] })
  let r1 := runStage .wildfire_ingestion wildfire
  let r2 := runStage .zoning_ingestion zoning
  let r3 := runStage .data_validation validation
  let scoringStages := if r1.success && r2.success then [runStage .risk_scoring scoring] else []
  let stages := [r0, r1, r2, r3] ++ scoringStages ++
    [runStage .report_generation reports, runStage .state_sync sync, runStage .cleanup clean]
  (stages.all (·.success), stages)

end AutomationPipeline

/-! ## DataFetcher.fetchWFSPaginated
(src/lib/services/data-fetcher.ts) -/

namespace DataFetcher

/-- The paginated WFS fetch loop over the sequence of pages the server
would return. Before appending a page it checks the remaining capacity
against the 50,000-feature hard cap and appends only the remaining
slice; otherwise it appends the whole page and continues while the page
was full (`features.length === pageSize`). -/
def fetchWFSPaginated {α : Type} (pageSize : ℕ) : List (List α) → List α → List α
  | [], allFeatures => allFeatures
  | page :: rest, allFeatures =>
    if page.length = 0 then allFeatures
    else if 50000 < allFeatures.length + page.length then
      allFeatures ++ page.take (50000 - allFeatures.length)
    else if page.length = pageSize then
      fetchWFSPaginated pageSize rest (allFeatures ++ page)
    else allFeatures ++ page

end DataFetcher

namespace DataFetcher

/-- Length-level shadow of `fetchWFSPaginated`: the same loop over page
lengths only. -/
def fetchLen (pageSize : ℕ) : List ℕ → ℕ → ℕ
  | [], acc => acc
  | p :: rest, acc =>
    if p = 0 then acc
    else if 50000 < acc + p then acc + min (50000 - acc) p
    else if p = pageSize then fetchLen pageSize rest (acc + p)
    else acc + p

end DataFetcher

/-! ## Agent conclusion and report types
(src/lib/agents/data-analyst-agent.ts, src/lib/types/hazard.ts) -/

/-- The conclusion strings of the Insurance Risk Analyst, represented as
their template tag plus the interpolated values. -/
inductive ConclusionText
  | noFires
  | exposureSummary (fires : ℕ) (areaHa : ℚ) (score : ℤ) (lightningPct : ℤ) (trend : FireTrend)
  | limitedLossData
  | lossSummary (totalCost : ℚ) (years : ℕ) (avg : ℚ) (structures : ℚ) (volatility : Volatility)
  | noZoning
  | vulnSummary (developedPct residentialPct : ℤ) (exposureValue : ℚ) (score : ℤ)
  | riskSummary (overall : ℤ) (category : RiskCategory) (e l v : ℤ) (confidence : ℚ)
  | costSummary (baseline severe savings : ℤ)
  | reportSummary (regionName : String) (category : RiskCategory) (recCount : ℕ)
deriving DecidableEq

/-- A conclusion ledger entry. `regionId` is the empty string exactly as
in the source's addConclusion; the timestamp is outside the embedding and
`taskId` stands for the current task whose description fills `reasoning`. -/
structure AgentConclusion where
  agentId : String
  agentName : String
  regionId : String
  conclusion : ConclusionText
  confidence : ℚ
  dataSourcesCited : List String
  taskId : String
deriving DecidableEq

inductive Scenario
  | baseline
  | moderate_climate
  | severe_climate
  | development_growth
deriving DecidableEq

structure CostProjection where
  regionId : String
  scenario : Scenario
  timeHorizon : ℕ
  projectedAnnualLoss : ℤ
  ciLower : ℤ
  ciUpper : ℤ
  keyDrivers : List String
  mitigationSavings : ℤ
deriving DecidableEq

inductive EventMagnitude
  | minor
  | moderate
  | major
  | catastrophic
deriving DecidableEq

structure DisasterRecoveryScenario where
  regionId : String
  scenarioName : String
  eventMagnitude : EventMagnitude
  estimatedDamage : ℤ
  recoveryTimeMonths : ℕ
  insurancePayoutEstimate : ℤ
  outOfPocketEstimate : ℤ
  evacuationCost : ℚ
  infrastructureRepairCost : ℤ
deriving DecidableEq

/-- describeTrend output, as template tag plus raw percent change. -/
inductive TrendText
  | insufficientData
  | increasingTrend (change : ℚ)
  | decreasingTrend (change : ℚ)
  | stableText
deriving DecidableEq

/-- Risk report (generatedAt and the fixed explainability string constants
— methodology, data-source names, limitations — are omitted; the
feature-importance weights are the scoring weights restated). -/
structure RiskReport where
  regionId : String
  regionName : String
  riskScore : RiskScore
  rankings : List RiskRanking
  totalLoss : ℚ
  majorEvents : List WildfirePerimeter
  trendDescription : TrendText
  projections : List CostProjection
  recoveryScenarios : List DisasterRecoveryScenario
  recommendations : List String
deriving DecidableEq

structure ValidationResult where
  isValid : Bool
  errors : List String
  warnings : List String
  dataQualityScore : ℚ
  missingFields : List String
  anomalies : List String
deriving DecidableEq

/-! ## RegionStore (StateManager)
(src/lib/state/region-state.ts, concatenated at the end of the
repository README). The version counter, lastModified, subscribers,
constraints, plan variants, pipeline status and the capped eventHistory
ring buffer are omitted: no claim mentions them. Event ids, timestamps
and payloads are outside the embedding; an event keeps its type, its
top-level regionId and its status. -/

inductive RegionType
  | municipality
  | fire_centre
  | fire_zone
  | regional_district
deriving DecidableEq

structure HazardData where
  historicalFires : List WildfirePerimeter
  fireStatistics : List WildfireStatistics
  currentFWI : Option ℚ
  dangerRating : Option String
deriving DecidableEq

structure ZoningData where
  zones : List ZoningRegion
  developedPercentage : ℚ
  underdevelopedPercentage : ℚ
deriving DecidableEq

/-- RegionState (the lastUpdated/lastAnalyzed timestamps are omitted). -/
structure Region where
  regionId : String
  regionName : String
  regionType : RegionType
  hazardData : HazardData
  zoningData : ZoningData
  riskScore : Option RiskScore
  riskRanking : Option RiskRanking
  reports : List RiskReport
  costProjections : List CostProjection
  recoveryScenarios : List DisasterRecoveryScenario
  agentConclusions : List AgentConclusion
  dataQuality : Option ValidationResult
deriving DecidableEq

/-- The EventType union of region-state.ts; crew_execution_completed is
added because crew-orchestrator.ts emits it although the union lacks it. -/
inductive EventType
  | data_ingestion_started
  | data_ingestion_completed
  | risk_scoring_started
  | risk_scoring_completed
  | report_generation_started
  | report_generation_completed
  | agent_execution_started
  | agent_execution_completed
  | validation_completed
  | state_updated
  | crew_execution_completed
deriving DecidableEq

inductive EventStatus
  | pending
  | processing
  | completed
  | failed
deriving DecidableEq

/-- PipelineEvent (id, timestamp and the payload object are omitted). -/
structure StoreEvent where
  etype : EventType
  regionId : Option String
  status : EventStatus
deriving DecidableEq

structure Store where
  regions : List (String × Region)
  events : List StoreEvent
  rankings : List RiskRanking
deriving DecidableEq

/-- Partial RegionState: an absent field is none; for the nullable
fields the inner Option is the stored null-or-value. -/
structure RegionPartial where
  regionId : Option String := none
  regionName : Option String := none
  regionType : Option RegionType := none
  hazardData : Option HazardData := none
  zoningData : Option ZoningData := none
  riskScore : Option (Option RiskScore) := none
  riskRanking : Option (Option RiskRanking) := none
  reports : Option (List RiskReport) := none
  costProjections : Option (List CostProjection) := none
  recoveryScenarios : Option (List DisasterRecoveryScenario) := none
  agentConclusions : Option (List AgentConclusion) := none
  dataQuality : Option (Option ValidationResult) := none
deriving DecidableEq

namespace StateManager

/-- The spread of the partial over the existing record: every field
present in the partial replaces the stored one — including riskScore,
reports and agentConclusions. -/
def mergeRegion (r : Region) (p : RegionPartial) : Region :=
  { regionId := p.regionId.getD r.regionId,
    regionName := p.regionName.getD r.regionName,
    regionType := p.regionType.getD r.regionType,
    hazardData := p.hazardData.getD r.hazardData,
    zoningData := p.zoningData.getD r.zoningData,
    riskScore := p.riskScore.getD r.riskScore,
    riskRanking := p.riskRanking.getD r.riskRanking,
    reports := p.reports.getD r.reports,
    costProjections := p.costProjections.getD r.costProjections,
    recoveryScenarios := p.recoveryScenarios.getD r.recoveryScenarios,
    agentConclusions := p.agentConclusions.getD r.agentConclusions,
    dataQuality := p.dataQuality.getD r.dataQuality }

/-- createDefaultRegionState: zeroed defaults with regionName defaulting
to the region id, then the partial spread over them (a present field
wins, the trailing spread overriding even the regionName-or-id default). -/
def createDefaultRegionState (regionId : String) (p : RegionPartial) : Region :=
  { regionId := p.regionId.getD regionId,
    regionName := p.regionName.getD regionId,
    regionType := p.regionType.getD .municipality,
    hazardData := p.hazardData.getD
      { historicalFires := [], fireStatistics := [], currentFWI := none, dangerRating := none },
    zoningData := p.zoningData.getD
      { zones := [], developedPercentage := 0, underdevelopedPercentage := 0 },
    riskScore := p.riskScore.getD none,
    riskRanking := p.riskRanking.getD none,
    reports := p.reports.getD [],
    costProjections := p.costProjections.getD [],
    recoveryScenarios := p.recoveryScenarios.getD [],
    agentConclusions := p.agentConclusions.getD [],
    dataQuality := p.dataQuality.getD none }

def emptyStore : Store := { regions := [], events := [], rankings := [] }

/-- Map.get over the insertion-ordered entry list. -/
def getRegion (st : Store) (id : String) : Option Region :=
  (st.regions.find? (fun q => q.1 = id)).map (·.2)

def getAllRegions (st : Store) : List Region := st.regions.map (·.2)

/-- Map.set: replace the entry in place, or append a freshly created
default record merged with the partial. -/
def updateAssoc (id : String) (p : RegionPartial) :
    List (String × Region) → List (String × Region)
  | [] => [(id, createDefaultRegionState id p)]
  | (k, r) :: rest =>
    if k = id then (k, mergeRegion r p) :: rest
    else (k, r) :: updateAssoc id p rest

/-- emitEvent: append a pending event (the capped ring-buffer copy is
omitted). -/
def emitEvent (st : Store) (etype : EventType) (regionId : Option String) : Store :=
  { st with events := st.events ++ [{ etype, regionId, status := .pending }] }

/-- setRegion: merge (or create) the record, then emit a state_updated
event. It does NOT recompute the global rankings, even when the partial
carries a riskScore. -/
def setRegion (st : Store) (regionId : String) (p : RegionPartial) : Store :=
  let st' := { st with regions := updateAssoc regionId p st.regions }
  emitEvent st' .state_updated (some regionId)

/-- The full record as a partial: the writers below pass the whole
mutated record back through setRegion. -/
def toPartial (r : Region) : RegionPartial :=
  { regionId := some r.regionId,
    regionName := some r.regionName,
    regionType := some r.regionType,
    hazardData := some r.hazardData,
    zoningData := some r.zoningData,
    riskScore := some r.riskScore,
    riskRanking := some r.riskRanking,
    reports := some r.reports,
    costProjections := some r.costProjections,
    recoveryScenarios := some r.recoveryScenarios,
    agentConclusions := some r.agentConclusions,
    dataQuality := some r.dataQuality }

def updateRegionHazardData (st : Store) (regionId : String)
    (fires : List WildfirePerimeter) (statistics : List WildfireStatistics) : Store :=
  let region := (getRegion st regionId).getD (createDefaultRegionState regionId {})
  let region' := { region with hazardData :=
    { historicalFires := fires, fireStatistics := statistics,
      currentFWI := region.hazardData.currentFWI,
      dangerRating := region.hazardData.dangerRating } }
  setRegion st regionId (toPartial region')

/-- Derived percentages recomputed from the given zone list only; the
divisor is the zone count with the source's or-1 fallback for an empty
list. -/
def updateRegionZoningData (st : Store) (regionId : String)
    (zones : List ZoningRegion) : Store :=
  let region := (getRegion st regionId).getD (createDefaultRegionState regionId {})
  let developed := (zones.filter (fun z => z.developmentStatus = .developed)).length
  let underdeveloped := (zones.filter (fun z => z.developmentStatus = .underdeveloped)).length
  let total : ℚ := if zones.length = 0 then 1 else zones.length
  let region' := { region with zoningData :=
    { zones, developedPercentage := (developed : ℚ) / total * 100,
      underdevelopedPercentage := (underdeveloped : ℚ) / total * 100 } }
  setRegion st regionId (toPartial region')

/-- Stable insertion into a descending-by-score list: the inserted
element precedes every element of equal or smaller score. -/
def insertDesc (x : String × String × ℤ) :
    List (String × String × ℤ) → List (String × String × ℤ)
  | [] => [x]
  | y :: ys => if y.2.2 ≤ x.2.2 then x :: y :: ys else y :: insertDesc x ys

/-- Stable sort by descending score (JS Array.sort with comparator
b - a is stable: earlier elements stay first on ties). -/
def sortDesc : List (String × String × ℤ) → List (String × String × ℤ)
  | [] => []
  | x :: xs => insertDesc x (sortDesc xs)

def assignRanks (n : ℕ) : List (String × String × ℤ) → List RiskRanking
  | [] => []
  | (rid, rname, s) :: t =>
      { regionId := rid, regionName := rname, rank := n, score := s,
        trend := .stable, changeFromLastPeriod := 0 } :: assignRanks (n + 1) t

/-- updateGlobalRankings: the scored regions, projected to
(regionId, regionName, overallScore) — the sort key is the score, so
projecting before the stable sort equals sorting the records — sorted
descending with rank = index + 1. The source's overallScore-or-0 only
maps the score 0 to itself. -/
def computeRankings (regions : List (String × Region)) : List RiskRanking :=
  assignRanks 1 (sortDesc (regions.filterMap
    (fun q => q.2.riskScore.map (fun s => (q.2.regionId, q.2.regionName, s.overallScore)))))

def updateGlobalRankings (st : Store) : Store :=
  { st with rankings := computeRankings st.regions }

/-- updateRegionRiskScore: no-op on a missing region; otherwise write
the score back through setRegion (emitting state_updated) and recompute
the global rankings. -/
def updateRegionRiskScore (st : Store) (regionId : String) (score : RiskScore) : Store :=
  match getRegion st regionId with
  | none => st
  | some region =>
      let region' := { region with riskScore := some score }
      updateGlobalRankings (setRegion st regionId (toPartial region'))

/-- addAgentConclusion: no-op on a missing region; append-only growth
written back through setRegion (emitting state_updated). -/
def addAgentConclusion (st : Store) (regionId : String) (c : AgentConclusion) : Store :=
  match getRegion st regionId with
  | none => st
  | some region =>
      setRegion st regionId (toPartial
        { region with agentConclusions := region.agentConclusions ++ [c] })

/-- addReport: no-op on a missing region; append-only growth written
back through setRegion (emitting state_updated). -/
def addReport (st : Store) (regionId : String) (report : RiskReport) : Store :=
  match getRegion st regionId with
  | none => st
  | some region =>
      setRegion st regionId (toPartial { region with reports := region.reports ++ [report] })

def getGlobalRankings (st : Store) : List RiskRanking := st.rankings

def reset (_st : Store) : Store := emptyStore

/-- Score-level shadow of insertDesc. -/
def insertDescZ (x : ℤ) : List ℤ → List ℤ
  | [] => [x]
  | y :: ys => if y ≤ x then x :: y :: ys else y :: insertDescZ x ys

/-- Score-level shadow of sortDesc. -/
def sortDescZ : List ℤ → List ℤ
  | [] => []
  | x :: xs => insertDescZ x (sortDescZ xs)

/-- Score-level shadow of assignRanks: each score paired with its rank. -/
def assignRanksZ (n : ℕ) : List (ℤ) → List (ℤ × ℕ)
  | [] => []
  | s :: t => (s, n) :: assignRanksZ (n + 1) t

/-- The overallScores of the scored regions, in stored order. -/
def scoresOf (regions : List (String × Region)) : List ℤ :=
  regions.filterMap (fun q => q.2.riskScore.map (·.overallScore))

end StateManager

/-- One store operation, for quantifying over arbitrary operation sequences. -/
inductive StoreOp
  | setRegion (id : String) (p : RegionPartial)
  | updateHazard (id : String) (fires : List WildfirePerimeter) (stats : List WildfireStatistics)
  | updateZoning (id : String) (zones : List ZoningRegion)
  | updateRiskScore (id : String) (score : RiskScore)
  | addReport (id : String) (report : RiskReport)
  | addConclusion (id : String) (c : AgentConclusion)
  | emitEvent (e : EventType) (rid : Option String)
  | reset

def applyOp (st : Store) : StoreOp → Store
  | .setRegion id p => StateManager.setRegion st id p
  | .updateHazard id fires stats => StateManager.updateRegionHazardData st id fires stats
  | .updateZoning id zones => StateManager.updateRegionZoningData st id zones
  | .updateRiskScore id score => StateManager.updateRegionRiskScore st id score
  | .addReport id report => StateManager.addReport st id report
  | .addConclusion id c => StateManager.addAgentConclusion st id c
  | .emitEvent e rid => StateManager.emitEvent st e rid
  | .reset => StateManager.reset st

def applyOps (st : Store) : List StoreOp → Store
  | [] => st
  | op :: rest => applyOps (applyOp st op) rest

/-- Holds when the operation does not carry a riskScore through the
generic set: every score write goes through updateRiskScore. -/
def scoreWriteOK : StoreOp → Bool
  | .setRegion _ p => p.riskScore.isNone
  | _ => true

/-- The ranking table agrees with a recomputation from the current
regions on scores and ranks (names may be stale between recomputes). -/
def RankOK (st : Store) : Prop :=
  st.rankings.map (fun e => (e.score, e.rank)) =
    StateManager.assignRanksZ 1 (StateManager.sortDescZ (StateManager.scoresOf st.regions))

/-- A concrete risk score for counterexamples and witnesses. -/
def sampleScore (id : String) : RiskScore :=
  { regionId := id
    overallScore := 50
    category := .high
    components :=
      { wildfireExposure := 0
        historicalLoss := 0
        vulnerabilityIndex := 0
        climateProjection := 0
        mitigationFactor := 0 }
    confidence := 0 }

/-- Concrete operation sequence scoring one region through
updateRiskScore only. -/
def demoOps : List StoreOp :=
  [StoreOp.setRegion "a" {}, StoreOp.updateRiskScore "a" (sampleScore "a")]

/-! ## Agent crew
(src/lib/agents/crew-orchestrator.ts, src/lib/agents/data-analyst-agent.ts) -/

/-- The per-message reasoning strings, as template tag plus interpolated
values. -/
inductive MessageText
  | validateData (regionName : String) (fires zones : ℕ)
  | analyzeRegionText (regionName : String) (fires : ℕ)
  | mitigationStrategyText (regionName : String) (overall : ℤ) (category : RiskCategory)
deriving DecidableEq

/-- A communication-log message (timestamps and the raw input/output
payloads are outside the embedding). -/
structure AgentMessage where
  agentId : String
  agentName : String
  reasoning : MessageText
  action : String
  nextAgent : Option String
deriving DecidableEq

structure DataQualityInfo where
  overallScore : ℚ
  wildfireDataQuality : ℚ
  zoningDataQuality : ℚ
  completeness : ℚ
  reliability : ℚ
deriving DecidableEq

inductive DataSpanText
  | noData
  | span (minYear maxYear : ℤ)
deriving DecidableEq

structure DataAnalystSummary where
  totalFires : ℕ
  totalZones : ℕ
  dataSpan : DataSpanText
  majorGaps : List String
deriving DecidableEq

/-- Data Analyst output (`validatedData` echoes the input and is omitted). -/
structure DataAnalystOutput where
  dataQuality : DataQualityInfo
  summary : DataAnalystSummary
  recommendations : List String
  readyForAnalysis : Bool
deriving DecidableEq

namespace DataAnalystAgent

def assessWildfireDataQuality (fires : List WildfirePerimeter)
    (statistics : List WildfireStatistics) : ℚ :=
  if fires.length = 0 then 0
  else
    let s1 : ℚ := 50
    let s2 := if 10 < fires.length then s1 + 20 else s1
    let s3 := if 5 < statistics.length then s2 + 15 else s2
    let s4 := if fires.all (fun f => decide (0 < f.areaBurnedHa)) then s3 + 15 else s3
    min 100 s4

def assessZoningDataQuality (zones : List ZoningRegion) : ℚ :=
  if zones.length = 0 then 0
  else
    let s1 : ℚ := 50
    let s2 := if 50 < zones.length then s1 + 25 else s1
    let s3 := if zones.all (fun z => decide (0 < z.areaHa)) then s2 + 15 else s2
    let s4 := if zones.any (fun z => z.developmentStatus = .developed) then s3 + 10 else s3
    min 100 s4

def calculateDataSpan (fires : List WildfirePerimeter) : DataSpanText :=
  match fires with
  | [] => .noData
  | f :: rest =>
      let minYear := rest.foldl (fun m g => min m g.fireYear) f.fireYear
      let maxYear := rest.foldl (fun m g => max m g.fireYear) f.fireYear
      .span minYear maxYear

def identifyGaps (fires : List WildfirePerimeter) (statistics : List WildfireStatistics)
    (zones : List ZoningRegion) : List String :=
  (if fires.length < 5 then ["Limited wildfire historical data"] else []) ++
  (if zones.length < 10 then ["Insufficient zoning coverage"] else []) ++
  (if statistics.length = 0 then ["Missing fire statistics"] else [])

def calculateCompleteness (fires : List WildfirePerimeter)
    (statistics : List WildfireStatistics) (zones : List ZoningRegion) : ℚ :=
  (if 0 < fires.length then (33 : ℚ) else 0) +
  (if 0 < statistics.length then (33 : ℚ) else 0) +
  (if 0 < zones.length then (34 : ℚ) else 0)

def calculateReliability (fires : List WildfirePerimeter) : ℚ :=
  let recentData := (fires.filter (fun f => 2020 ≤ f.fireYear)).length
  if fires.length = 0 then 0
  else min 100 ((recentData : ℚ) / fires.length * 100 + 30)

/-- Rule-based recommendations (no LLM configured: the deterministic
fallback path). -/
def generateRecommendations (fires : List WildfirePerimeter)
    (zones : List ZoningRegion) (qualityScore : ℚ) : List String :=
  ((if qualityScore < 70 then
      ["Data quality below threshold - consider additional data sources"] else []) ++
   (if fires.length < 10 then
      ["Expand wildfire historical data to at least 10 years"] else []) ++
   (if zones.length < 50 then
      ["Increase zoning data coverage for better accuracy"] else [])).take 5

def validateMessage (regionName : String) (fires zones : ℕ) : AgentMessage :=
  { agentId := "data-analyst", agentName := "Data Analyst",
    reasoning := .validateData regionName fires zones,
    action := "validate_data", nextAgent := some "insurance-risk-analyst" }

/-- DataAnalystAgent.execute: compute the quality output and append one
message to the persistent message history. -/
def execute (history : List AgentMessage) (regionName : String)
    (fires : List WildfirePerimeter) (statistics : List WildfireStatistics)
    (zones : List ZoningRegion) : DataAnalystOutput × List AgentMessage :=
  let wildfireQuality := assessWildfireDataQuality fires statistics
  let zoningQuality := assessZoningDataQuality zones
  let overallScore := (wildfireQuality + zoningQuality) / 2
  let output : DataAnalystOutput :=
    { dataQuality :=
        { overallScore,
          wildfireDataQuality := wildfireQuality,
          zoningDataQuality := zoningQuality,
          completeness := calculateCompleteness fires statistics zones,
          reliability := calculateReliability fires },
      summary :=
        { totalFires := fires.length, totalZones := zones.length,
          dataSpan := calculateDataSpan fires,
          majorGaps := identifyGaps fires statistics zones },
      recommendations := generateRecommendations fires zones overallScore,
      readyForAnalysis := decide (70 ≤ overallScore) }
  (output, history ++ [validateMessage regionName fires.length zones.length])

end DataAnalystAgent

namespace InsuranceRiskAnalystAgent

/-- this.conclusions / this.messageHistory of the long-lived agent object. -/
structure AgentState where
  conclusions : List AgentConclusion
  messageHistory : List AgentMessage
deriving DecidableEq

def mkConclusion (text : ConclusionText) (confidence : ℚ) (sources : List String)
    (taskId : String) : AgentConclusion :=
  { agentId := "insurance-risk-analyst", agentName := "Insurance Risk Analyst",
    regionId := "", conclusion := text, confidence := confidence,
    dataSourcesCited := sources, taskId := taskId }

/-- assessWildfireExposure together with the conclusion it records. -/
def assessWildfireExposureStep (currentYear : ℤ) (fires : List WildfirePerimeter) :
    ExposureAnalysis × AgentConclusion :=
  let a := assessWildfireExposure currentYear fires
  if fires.length = 0 then
    (a, mkConclusion .noFires (6/10) ["Wildfire perimeter analysis"] "assess-wildfire-exposure")
  else
    (a, mkConclusion
      (.exposureSummary fires.length a.totalAreaBurnedHa a.exposureScore
        a.lightningCausedPercent a.trend)
      (85/100) ["Historical fire perimeters", "BC Wildfire Service"] "assess-wildfire-exposure")

/-- analyzeHistoricalLosses together with the conclusion it records. -/
def analyzeHistoricalLossesStep (statistics : List WildfireStatistics) :
    LossAnalysis × AgentConclusion :=
  let a := analyzeHistoricalLosses statistics
  if statistics.length = 0 then
    (a, mkConclusion .limitedLossData (1/2) ["Loss data analysis"] "analyze-historical-losses")
  else
    (a, mkConclusion
      (.lossSummary a.totalSuppresionCost statistics.length a.averageAnnualCost
        a.totalStructuresDestroyed a.volatility)
      (8/10) ["BC Wildfire Service statistics"] "analyze-historical-losses")

/-- evaluateVulnerability together with the conclusion it records. -/
def evaluateVulnerabilityStep (zones : List ZoningRegion) :
    VulnerabilityAnalysis × AgentConclusion :=
  let a := evaluateVulnerability zones
  if zones.length = 0 then
    (a, mkConclusion .noZoning (1/2) ["Regional assessment"] "evaluate-vulnerability")
  else
    (a, mkConclusion
      (.vulnSummary a.developedPercent a.residentialPercent a.estimatedExposureValue
        a.vulnerabilityScore)
      (3/4) ["Municipal zoning data"] "evaluate-vulnerability")

def riskScoreConclusion (rs : RiskScore) (exposure : ExposureAnalysis)
    (loss : LossAnalysis) (vulnerability : VulnerabilityAnalysis) : AgentConclusion :=
  mkConclusion
    (.riskSummary rs.overallScore rs.category exposure.exposureScore loss.lossScore
      vulnerability.vulnerabilityScore rs.confidence)
    rs.confidence ["All analysis components"] "calculate-risk-score"

/-- Future cost projections; `|| 1000000` replaces a zero (falsy) average
annual cost. -/
def projectFutureCosts (regionId : String) (rs : RiskScore) (loss : LossAnalysis) :
    List CostProjection × AgentConclusion :=
  let baseAnnualLoss : ℚ := if loss.averageAnnualCost = 0 then 1000000 else loss.averageAnnualCost
  let riskMultiplier : ℚ := 1 + (rs.overallScore : ℚ) / 100
  let p0 : CostProjection :=
    { regionId, scenario := .baseline, timeHorizon := 10,
      projectedAnnualLoss := jsRound (baseAnnualLoss * riskMultiplier),
      ciLower := jsRound (baseAnnualLoss * riskMultiplier * (6/10)),
      ciUpper := jsRound (baseAnnualLoss * riskMultiplier * (15/10)),
      keyDrivers := ["Historical patterns"],
      mitigationSavings := jsRound (baseAnnualLoss * (15/100)) }
  let p1 : CostProjection :=
    { regionId, scenario := .moderate_climate, timeHorizon := 10,
      projectedAnnualLoss := jsRound (baseAnnualLoss * riskMultiplier * (135/100)),
      ciLower := jsRound (baseAnnualLoss * riskMultiplier * (9/10)),
      ciUpper := jsRound (baseAnnualLoss * riskMultiplier * 2),
      keyDrivers := ["Climate warming +1.5C"],
      mitigationSavings := jsRound (baseAnnualLoss * (2/10)) }
  let p2 : CostProjection :=
    { regionId, scenario := .severe_climate, timeHorizon := 10,
      projectedAnnualLoss := jsRound (baseAnnualLoss * riskMultiplier * (19/10)),
      ciLower := jsRound (baseAnnualLoss * riskMultiplier * (13/10)),
      ciUpper := jsRound (baseAnnualLoss * riskMultiplier * 3),
      keyDrivers := ["Climate warming +2.5C"],
      mitigationSavings := jsRound (baseAnnualLoss * (25/100)) }
  let p3 : CostProjection :=
    { regionId, scenario := .development_growth, timeHorizon := 10,
      projectedAnnualLoss := jsRound (baseAnnualLoss * riskMultiplier * (15/10)),
      ciLower := jsRound (baseAnnualLoss * riskMultiplier * (11/10)),
      ciUpper := jsRound (baseAnnualLoss * riskMultiplier * (22/10)),
      keyDrivers := ["Population growth", "WUI expansion"],
      mitigationSavings := jsRound (baseAnnualLoss * (3/10)) }
  ([p0, p1, p2, p3],
   mkConclusion (.costSummary p0.projectedAnnualLoss p2.projectedAnnualLoss p2.mitigationSavings)
     (7/10) ["Climate projections", "Development scenarios"] "project-future-costs")

def insertByYear (s : WildfireStatistics) :
    List WildfireStatistics → List WildfireStatistics
  | [] => [s]
  | t :: ts => if s.year ≤ t.year then s :: t :: ts else t :: insertByYear s ts

def sortByYear : List WildfireStatistics → List WildfireStatistics
  | [] => []
  | s :: ss => insertByYear s (sortByYear ss)

/-- describeTrend (labels only; a zero first-half average is a JS division
by zero and is mapped to the stable label under the rational idealization). -/
def describeTrend (statistics : List WildfireStatistics) : TrendText :=
  if statistics.length < 2 then .insufficientData
  else
    let sorted := sortByYear statistics
    let half := sorted.length / 2
    let firstAvg : ℚ :=
      ((sorted.take half).foldl (fun sum s => sum + s.totalAreaBurnedHa) 0) / half
    let secondAvg : ℚ :=
      ((sorted.drop half).foldl (fun sum s => sum + s.totalAreaBurnedHa) 0) /
        (sorted.length - half)
    let change : ℚ := (secondAvg - firstAvg) / firstAvg * 100
    if 20 < change then .increasingTrend change
    else if change < -20 then .decreasingTrend change
    else .stableText

def generateRecommendations (rs : RiskScore) : List String :=
  ((if 60 < rs.components.wildfireExposure then
      ["Implement FireSmart landscaping standards within 100m of structures",
       "Increase fuel management and create firebreaks around developed areas",
       "Upgrade building codes to require fire-resistant materials"] else []) ++
   (if 50 < rs.components.historicalLoss then
      ["Conduct detailed loss analysis to identify risk concentration",
       "Review portfolio limits and consider catastrophe reinsurance"] else []) ++
   (if 60 < rs.components.vulnerabilityIndex then
      ["Assess and improve emergency evacuation routes",
       "Implement development restrictions in highest-risk zones"] else []) ++
   ["Monitor daily Fire Weather Index during fire season",
    "Maintain 10m defensible space around structures",
    "Develop community wildfire response plans"]).take 10

/-- Recovery ladder; `|| 100000000` replaces a zero (falsy) base value. -/
def generateRecoveryScenarios (region : Region) (rs : RiskScore) :
    List DisasterRecoveryScenario :=
  let raw : ℚ := region.zoningData.zones.foldl (fun sum z => sum + z.areaHa * 1000000) 0
  let baseValue : ℚ := if raw = 0 then 100000000 else raw
  let riskMult : ℚ := 1 + (rs.overallScore : ℚ) / 200
  [{ regionId := region.regionId, scenarioName := "Minor (100-500 ha)",
     eventMagnitude := .minor,
     estimatedDamage := jsRound (baseValue * (5/1000) * riskMult),
     recoveryTimeMonths := 6,
     insurancePayoutEstimate := jsRound (baseValue * (4/1000) * riskMult),
     outOfPocketEstimate := jsRound (baseValue * (1/1000) * riskMult),
     evacuationCost := 250000,
     infrastructureRepairCost := jsRound (baseValue * (2/1000)) },
   { regionId := region.regionId, scenarioName := "Moderate (500-5k ha)",
     eventMagnitude := .moderate,
     estimatedDamage := jsRound (baseValue * (3/100) * riskMult),
     recoveryTimeMonths := 18,
     insurancePayoutEstimate := jsRound (baseValue * (22/1000) * riskMult),
     outOfPocketEstimate := jsRound (baseValue * (8/1000) * riskMult),
     evacuationCost := 2500000,
     infrastructureRepairCost := jsRound (baseValue * (1/100)) },
   { regionId := region.regionId, scenarioName := "Major (5k-50k ha)",
     eventMagnitude := .major,
     estimatedDamage := jsRound (baseValue * (12/100) * riskMult),
     recoveryTimeMonths := 36,
     insurancePayoutEstimate := jsRound (baseValue * (85/1000) * riskMult),
     outOfPocketEstimate := jsRound (baseValue * (35/1000) * riskMult),
     evacuationCost := 15000000,
     infrastructureRepairCost := jsRound (baseValue * (5/100)) },
   { regionId := region.regionId, scenarioName := "Catastrophic (>50k ha)",
     eventMagnitude := .catastrophic,
     estimatedDamage := jsRound (baseValue * (35/100) * riskMult),
     recoveryTimeMonths := 60,
     insurancePayoutEstimate := jsRound (baseValue * (22/100) * riskMult),
     outOfPocketEstimate := jsRound (baseValue * (13/100) * riskMult),
     evacuationCost := 50000000,
     infrastructureRepairCost := jsRound (baseValue * (15/100)) }]

/-- generateRiskReport; the rankings filter reads the ranking table as it
is before this run's score write, exactly as the source does. -/
def generateRiskReport (region : Region) (rs : RiskScore)
    (projections : List CostProjection) (rankingsNow : List RiskRanking) :
    RiskReport × AgentConclusion :=
  let recommendations := generateRecommendations rs
  let report : RiskReport :=
    { regionId := region.regionId, regionName := region.regionName,
      riskScore := rs,
      rankings := rankingsNow.filter (fun e => e.regionId = region.regionId),
      totalLoss := region.hazardData.fireStatistics.foldl (fun sum s => sum + s.estimatedCost) 0,
      majorEvents := region.hazardData.historicalFires.filter (fun f => 1000 < f.areaBurnedHa),
      trendDescription := describeTrend region.hazardData.fireStatistics,
      projections,
      recoveryScenarios := generateRecoveryScenarios region rs,
      recommendations }
  (report,
   mkConclusion (.reportSummary region.regionName rs.category recommendations.length)
     (85/100) ["All analysis components"] "generate-risk-report")

def analyzeMessage (regionName : String) (fires : ℕ) : AgentMessage :=
  { agentId := "insurance-risk-analyst", agentName := "Insurance Risk Analyst",
    reasoning := .analyzeRegionText regionName fires,
    action := "analyze_region", nextAgent := some "mitigation-strategist" }

/-- analyzeRegion: reset the conclusion and message accumulators, look the
region up (throwing when absent), run the six tasks (each emitting an
agent_execution_started event — whose agentId/taskId ride in the omitted
payload — and recording one conclusion), then persist score, report and
conclusions into the store. -/
def analyzeRegion (currentYear : ℤ) (_ag : AgentState) (st : Store) (regionId : String) :
    Except String (RiskScore × RiskReport × List AgentConclusion) × AgentState × Store :=
  match StateManager.getRegion st regionId with
  | none =>
      (.error "Region not found", { conclusions := [], messageHistory := [] }, st)
  | some region =>
      let msg0 := analyzeMessage region.regionName region.hazardData.historicalFires.length
      let st1 := StateManager.emitEvent st .agent_execution_started none
      let (exposure, c1) := assessWildfireExposureStep currentYear region.hazardData.historicalFires
      let st2 := StateManager.emitEvent st1 .agent_execution_started none
      let (loss, c2) := analyzeHistoricalLossesStep region.hazardData.fireStatistics
      let st3 := StateManager.emitEvent st2 .agent_execution_started none
      let (vulnerability, c3) := evaluateVulnerabilityStep region.zoningData.zones
      let st4 := StateManager.emitEvent st3 .agent_execution_started none
      let riskScore := calculateRiskScore regionId exposure loss vulnerability
      let c4 := riskScoreConclusion riskScore exposure loss vulnerability
      let st5 := StateManager.emitEvent st4 .agent_execution_started none
      let (projections, c5) := projectFutureCosts regionId riskScore loss
      let st6 := StateManager.emitEvent st5 .agent_execution_started none
      let (report, c6) := generateRiskReport region riskScore projections st6.rankings
      let conclusions := [c1, c2, c3, c4, c5, c6]
      let st7 := StateManager.updateRegionRiskScore st6 regionId riskScore
      let st8 := StateManager.addReport st7 regionId report
      let st9 := conclusions.foldl (fun s c => StateManager.addAgentConclusion s regionId c) st8
      (.ok (riskScore, report, conclusions),
       { conclusions, messageHistory := [msg0] }, st9)

end InsuranceRiskAnalystAgent

/-! ## MitigationStrategistAgent -/

inductive ActionPriority
  | critical
  | high
  | medium
  | low
deriving DecidableEq

inductive ActionCategory
  | prevention
  | preparedness
  | mitigationCat
  | insurance
deriving DecidableEq

/-- The fixed timeframe strings of the rule-based actions. -/
inductive ActionTimeframe
  | m2to3
  | m2to4
  | m3to6
  | m4to8
  | m6to12
deriving DecidableEq

structure MitigationAction where
  priority : ActionPriority
  category : ActionCategory
  title : String
  description : String
  estimatedCost : ℚ
  timeframe : ActionTimeframe
  expectedRiskReduction : ℚ
  stakeholders : List String
deriving DecidableEq

/-- The deterministic fallback strategy summary, as template tag plus
interpolated values. -/
inductive StrategyText
  | fallback (regionName : String) (category : RiskCategory) (actions : ℕ) (totalReduction : ℚ)
deriving DecidableEq

structure MitigationStrategistOutput where
  overallStrategy : StrategyText
  actions : List MitigationAction
  priorityOrder : List String
  totalEstimatedCost : ℚ
  expectedRiskReduction : ℚ
  implementationTimeline : String
  keyStakeholders : List String
deriving DecidableEq

namespace MitigationStrategistAgent

/-- Rule-based actions (no LLM configured: the deterministic fallback),
capped at 8. -/
def generateMitigationActions (rs : RiskScore) : List MitigationAction :=
  let fuelMgmt : MitigationAction :=
    { priority := .critical
      category := .prevention
      title := "Establish Wildfire Fuel Management Program"
      description := "Implement controlled burns and vegetation management in high-risk zones to reduce fuel load."
      estimatedCost := 500000
      timeframe := .m6to12
      expectedRiskReduction := 12
      stakeholders := ["Municipal Fire Department", "BC Wildfire Service", "Property Owners"] }
  let fireSmart : MitigationAction :=
    { priority := .high
      category := .preparedness
      title := "Enhance Community FireSmart Program"
      description := "Expand FireSmart initiatives including home hardening, defensible space creation, and community education."
      estimatedCost := 250000
      timeframe := .m3to6
      expectedRiskReduction := 8
      stakeholders := ["Homeowners", "Insurance Providers", "FireSmart Canada"] }
  let incentives : MitigationAction :=
    { priority := .critical
      category := .insurance
      title := "Develop Wildfire Insurance Incentive Program"
      description := "Create premium discounts for properties meeting FireSmart standards and mitigation requirements."
      estimatedCost := 100000
      timeframe := .m2to4
      expectedRiskReduction := 5
      stakeholders := ["Insurance Bureau of Canada", "Local Insurers", "Municipal Government"] }
  let earlyWarning : MitigationAction :=
    { priority := .high
      category := .mitigationCat
      title := "Install Early Warning and Detection Systems"
      description := "Deploy advanced wildfire detection cameras, weather stations, and emergency alert systems."
      estimatedCost := 350000
      timeframe := .m4to8
      expectedRiskReduction := 7
      stakeholders := ["Municipal Emergency Services", "BC Wildfire Service", "Technology Providers"] }
  let evacuation : MitigationAction :=
    { priority := .medium
      category := .preparedness
      title := "Develop Evacuation and Emergency Response Plans"
      description := "Create detailed evacuation routes, emergency shelters, and communication protocols for wildfire events."
      estimatedCost := 75000
      timeframe := .m2to3
      expectedRiskReduction := 4
      stakeholders := ["Emergency Management BC", "RCMP", "Local Emergency Services"] }
  ((if 60 < rs.components.wildfireExposure then [fuelMgmt] else []) ++
   (if 50 < rs.components.vulnerabilityIndex then [fireSmart] else []) ++
   (if 70 < rs.overallScore then [incentives] else []) ++
   (if 40 < rs.components.climateProjection then [earlyWarning] else []) ++
   [evacuation]).take 8

def priorityWeight : ActionPriority → ℤ
  | .critical => 4
  | .high => 3
  | .medium => 2
  | .low => 1

/-- Stable insertion sort by descending priority weight (JS Array.sort
is stable: earlier actions stay first on equal priorities). -/
def insertByPriority (a : MitigationAction) :
    List MitigationAction → List MitigationAction
  | [] => [a]
  | b :: bs =>
    if priorityWeight b.priority ≤ priorityWeight a.priority then a :: b :: bs
    else b :: insertByPriority a bs

def sortByPriority : List MitigationAction → List MitigationAction
  | [] => []
  | a :: as' => insertByPriority a (sortByPriority as')

/-- The `timeframe.includes(...)` checks over the fixed timeframe strings. -/
def timeframeIncludes2to3 : ActionTimeframe → Bool
  | .m2to3 => true
  | _ => false

def timeframeIncludes6to12 : ActionTimeframe → Bool
  | .m6to12 => true
  | _ => false

def timeframeIncludes12to24 : ActionTimeframe → Bool
  | _ => false

def calculateTimeline (actions : List MitigationAction) : String :=
  let hasImmediate := actions.any (fun a => timeframeIncludes2to3 a.timeframe)
  let hasMedium := actions.any (fun a => timeframeIncludes6to12 a.timeframe)
  let hasLong := actions.any (fun a => timeframeIncludes12to24 a.timeframe)
  if hasLong then "12-24 months"
  else if hasMedium then "6-12 months"
  else if hasImmediate then "2-6 months"
  else "3-6 months"

/-- Set-based deduplication preserving first-insertion order, capped at 10. -/
def identifyStakeholders (actions : List MitigationAction) : List String :=
  ((actions.foldl (fun acc a =>
      a.stakeholders.foldl (fun acc2 s => if acc2.contains s then acc2 else acc2 ++ [s]) acc)
    []).take 10)

def strategyMessage (regionName : String) (rs : RiskScore) : AgentMessage :=
  { agentId := "mitigation-strategist", agentName := "Mitigation Strategist",
    reasoning := .mitigationStrategyText regionName rs.overallScore rs.category,
    action := "generate_mitigation_strategy", nextAgent := none }

/-- MitigationStrategistAgent.execute: derive the strategy and append one
message to the persistent message history. -/
def execute (history : List AgentMessage) (regionName : String) (rs : RiskScore) :
    MitigationStrategistOutput × List AgentMessage :=
  let actions := generateMitigationActions rs
  let sorted := sortByPriority actions
  let priorityOrder := sorted.map (·.title)
  let totalEstimatedCost := actions.foldl (fun sum a => sum + a.estimatedCost) 0
  let totalReduction := actions.foldl (fun sum a => sum + a.expectedRiskReduction) 0
  let expectedRiskReduction := min 30 totalReduction
  let output : MitigationStrategistOutput :=
    { overallStrategy := .fallback regionName rs.category actions.length totalReduction,
      actions := sorted,
      priorityOrder,
      totalEstimatedCost,
      expectedRiskReduction,
      implementationTimeline := calculateTimeline actions,
      keyStakeholders := identifyStakeholders actions }
  (output, history ++ [strategyMessage regionName rs])

end MitigationStrategistAgent

/-! ## CrewOrchestrator -/

/-- The three long-lived agent objects of one CrewOrchestrator instance. -/
structure CrewAgents where
  dataAnalystHistory : List AgentMessage
  insuranceState : InsuranceRiskAnalystAgent.AgentState
  mitigationHistory : List AgentMessage
deriving DecidableEq

/-- Freshly constructed orchestrator: all histories empty. -/
def crewInit : CrewAgents :=
  { dataAnalystHistory := [],
    insuranceState := { conclusions := [], messageHistory := [] },
    mitigationHistory := [] }

inductive CrewError
  | notFound (regionId : String)
deriving DecidableEq

structure CrewResult where
  regionId : String
  regionName : String
  dataQuality : DataQualityInfo
  riskScore : RiskScore
  riskReport : RiskReport
  mitigationStrategy : MitigationStrategistOutput
  communicationLog : List AgentMessage
  agentCount : ℕ
  status : String
deriving DecidableEq

/-- runCrew: look the region up (failing with a not-found error before any
store write), then run the three agents in sequence, pushing each agent's
full getMessageHistory() into the communication log. -/
def runCrew (currentYear : ℤ) (ag : CrewAgents) (st : Store) (regionId : String) :
    Except CrewError CrewResult × CrewAgents × Store :=
  match StateManager.getRegion st regionId with
  | none => (.error (.notFound regionId), ag, st)
  | some region =>
      let (daOut, daHist) := DataAnalystAgent.execute ag.dataAnalystHistory
        region.regionName region.hazardData.historicalFires
        region.hazardData.fireStatistics region.zoningData.zones
      let (iaResult, iaState, st2) :=
        InsuranceRiskAnalystAgent.analyzeRegion currentYear ag.insuranceState st regionId
      match iaResult with
      | .error _ =>
          (.error (.notFound regionId),
           { dataAnalystHistory := daHist, insuranceState := iaState,
             mitigationHistory := ag.mitigationHistory }, st2)
      | .ok (riskScore, report, _conclusions) =>
          let (msOut, msHist) := MitigationStrategistAgent.execute ag.mitigationHistory
            region.regionName riskScore
          let communicationLog := daHist ++ iaState.messageHistory ++ msHist
          let st3 := StateManager.emitEvent st2 .crew_execution_completed none
          (.ok
            { regionId, regionName := region.regionName,
              dataQuality := daOut.dataQuality, riskScore, riskReport := report,
              mitigationStrategy := msOut, communicationLog,
              agentCount := 3, status := "completed" },
           { dataAnalystHistory := daHist, insuranceState := iaState,
             mitigationHistory := msHist }, st3)

/-- The communication log of a crew outcome (empty on failure: a failed
run returns no stage output). -/
def crewLog : Except CrewError CrewResult → List AgentMessage
  | .ok r => r.communicationLog
  | .error _ => []

/-- The conclusions component of an analyzeRegion outcome. -/
def conclusionsOf
    (r : Except String (RiskScore × RiskReport × List AgentConclusion)) :
    List AgentConclusion :=
  match r with
  | .ok (_, _, cs) => cs
  | .error _ => []

/-! ## Regions API route (GET /api/regions) -/

structure RegionSummary where
  id : String
  name : String
  rtype : String
  riskScore : Option ℤ
  riskCategory : Option RiskCategory
  hasData : Bool
  dataQualityScore : Option ℚ
deriving DecidableEq

structure RegionsCounts where
  total : ℕ
  analyzed : ℕ
  fireCentres : ℕ
  municipalities : ℕ
deriving DecidableEq

structure RegionsResponse where
  regions : List RegionSummary
  counts : RegionsCounts
deriving DecidableEq

def regionTypeString : RegionType → String
  | .municipality => "municipality"
  | .fire_centre => "fire_centre"
  | .fire_zone => "fire_zone"
  | .regional_district => "regional_district"

/-- BC_FIRE_CENTRES (src/lib/data/sources.ts), as (id, name). -/
def BC_FIRE_CENTRES : List (String × String) :=
  [("cariboo", "Cariboo Fire Centre"), ("coastal", "Coastal Fire Centre"),
   ("kamloops", "Kamloops Fire Centre"), ("northwest", "Northwest Fire Centre"),
   ("prince-george", "Prince George Fire Centre"), ("southeast", "Southeast Fire Centre")]

/-- BC_MAJOR_MUNICIPALITIES (src/lib/data/sources.ts), as (id, name). -/
def BC_MAJOR_MUNICIPALITIES : List (String × String) :=
  [("vancouver", "Vancouver"), ("surrey", "Surrey"), ("burnaby", "Burnaby"),
   ("richmond", "Richmond"), ("victoria", "Victoria"), ("kelowna", "Kelowna"),
   ("kamloops", "Kamloops"), ("nanaimo", "Nanaimo"), ("prince-george", "Prince George"),
   ("chilliwack", "Chilliwack")]

/-- Summary of a stored region; `|| null` maps a zero (falsy) score or
quality score to null exactly as the JS does. -/
def summarizeRegion (r : Region) : RegionSummary :=
  { id := r.regionId, name := r.regionName, rtype := regionTypeString r.regionType,
    riskScore := match r.riskScore with
      | some s => if s.overallScore = 0 then none else some s.overallScore
      | none => none,
    riskCategory := r.riskScore.map (·.category),
    hasData := decide (0 < r.hazardData.historicalFires.length) ||
      decide (0 < r.zoningData.zones.length),
    dataQualityScore := match r.dataQuality with
      | some q => if q.dataQualityScore = 0 then none else some q.dataQualityScore
      | none => none }

def missingEntry (rtype : String) (idName : String × String) : RegionSummary :=
  { id := idName.1, name := idName.2, rtype, riskScore := none,
    riskCategory := none, hasData := false, dataQualityScore := none }

/-- GET handler of the regions route (src/app/api/regions/route.ts). -/
def regionsRouteGET (storeRegions : List Region) (typeFilter : Option String) :
    RegionsResponse :=
  let filteredRegions : List Region := match typeFilter with
    | some t => storeRegions.filter (fun r => regionTypeString r.regionType = t)
    | none => storeRegions
  let regionSummaries := filteredRegions.map summarizeRegion
  let missingFireCentres :=
    (BC_FIRE_CENTRES.filter (fun fc =>
      ¬ storeRegions.any (fun r => r.regionId = fc.1))).map (missingEntry "fire_centre")
  let missingMunicipalities :=
    (BC_MAJOR_MUNICIPALITIES.filter (fun m =>
      ¬ storeRegions.any (fun r => r.regionId = m.1))).map (missingEntry "municipality")
  let allRegions := regionSummaries ++
    (if typeFilter ≠ some "municipality" then missingFireCentres else []) ++
    (if typeFilter ≠ some "fire_centre" then missingMunicipalities else [])
  { regions := allRegions,
    counts :=
      { total := allRegions.length,
        analyzed := (regionSummaries.filter (fun s => s.riskScore.isSome)).length,
        fireCentres := BC_FIRE_CENTRES.length,
        municipalities := BC_MAJOR_MUNICIPALITIES.length } }

/-! ## Concrete fixtures for witnesses -/

/-- A region record with empty hazard and zoning facts. -/
def demoRegion (id name : String) : Region :=
  { regionId := id
    regionName := name
    regionType := .municipality
    hazardData :=
      { historicalFires := []
        fireStatistics := []
        currentFWI := none
        dangerRating := none }
    zoningData := { zones := [], developedPercentage := 0, underdevelopedPercentage := 0 }
    riskScore := none
    riskRanking := none
    reports := []
    costProjections := []
    recoveryScenarios := []
    agentConclusions := []
    dataQuality := none }

/-- A store holding two empty-data regions a and b. -/
def demoStore : Store :=
  { regions := [("a", demoRegion "a" "Alpha"), ("b", demoRegion "b" "Beta")],
    events := [], rankings := [] }

/-! ## Helper lemmas -/

/-- Rounding a value clamped to [0,100] lands in [0,100]. -/
theorem jsRound_clamp_mem (w : ℚ) :
    0 ≤ jsRound (max 0 (min 100 w)) ∧ jsRound (max 0 (min 100 w)) ≤ 100 := by
  constructor
  · have h : (0 : ℚ) ≤ max 0 (min 100 w) := le_max_left _ _
    exact Int.le_floor.mpr (by push_cast; linarith)
  · have h : max 0 (min 100 w) ≤ 100 := max_le (by norm_num) (min_le_left _ _)
    have h2 : (⌊max 0 (min 100 w) + 1/2⌋ : ℤ) ≤ ⌊(100 : ℚ) + 1/2⌋ :=
      Int.floor_le_floor (by linarith)
    have h3 : (⌊(100 : ℚ) + 1/2⌋ : ℤ) = 100 := by norm_num
    calc jsRound (max 0 (min 100 w)) ≤ ⌊(100 : ℚ) + 1/2⌋ := h2
    _ = 100 := h3

/-- The length of the paginated fetch result equals the length-level loop
applied to the page lengths. -/
theorem length_fetchWFSPaginated {α : Type} (pageSize : ℕ) (pages : List (List α))
    (acc : List α) :
    (DataFetcher.fetchWFSPaginated pageSize pages acc).length =
      DataFetcher.fetchLen pageSize (pages.map List.length) acc.length := by
  induction pages generalizing acc with
  | nil => rfl
  | cons page rest ih =>
      simp only [DataFetcher.fetchWFSPaginated, DataFetcher.fetchLen, List.map_cons]
      by_cases h0 : page.length = 0
      · simp [h0]
      · simp only [h0, if_false]
        by_cases h1 : 50000 < acc.length + page.length
        · simp [h1, List.length_append, List.length_take]
        · simp only [h1, if_false]
          by_cases h2 : page.length = pageSize
          · simp [h2, ih, List.length_append]
          · simp [h2, List.length_append]

/-- The length-level loop never exceeds the 50,000 cap. -/
theorem fetchLen_le (pageSize : ℕ) (ps : List ℕ) :
    ∀ acc, acc ≤ 50000 → DataFetcher.fetchLen pageSize ps acc ≤ 50000 := by
  induction ps with
  | nil => intro acc h; simpa [DataFetcher.fetchLen] using h
  | cons p rest ih =>
      intro acc h
      simp only [DataFetcher.fetchLen]
      by_cases h0 : p = 0
      · simpa [h0] using h
      · simp only [h0, if_false]
        by_cases h1 : 50000 < acc + p
        · simp only [h1, if_true]
          omega
        · simp only [h1, if_false]
          by_cases h2 : p = pageSize
          · subst h2
            rw [if_pos rfl]
            exact ih (acc + p) (by omega)
          · simp only [h2, if_false]
            omega

/-- runStage always records the stage tag it was given. -/
@[simp] theorem runStage_stage (st : PipelineStage) (x : ExecResult) :
    (AutomationPipeline.runStage st x).stage = st := by
  cases x <;> rfl

/-! ## Claim theorems -/

/-- C1: for every region record (any list of fires, yearly statistics and
zones), the crew Risk Scorer's overall score lies in [0,100] and its
category is the band of that score (below 20 low, below 40 moderate,
below 60 high, below 80 very high, else extreme). -/
theorem C1_risk_score_bounds_and_category (year : ℤ) (rid : String)
    (fires : List WildfirePerimeter) (stats : List WildfireStatistics)
    (zones : List ZoningRegion) :
    0 ≤ (InsuranceRiskAnalystAgent.calculateRiskScore rid
        (InsuranceRiskAnalystAgent.assessWildfireExposure year fires)
        (InsuranceRiskAnalystAgent.analyzeHistoricalLosses stats)
        (InsuranceRiskAnalystAgent.evaluateVulnerability zones)).overallScore ∧
    (InsuranceRiskAnalystAgent.calculateRiskScore rid
        (InsuranceRiskAnalystAgent.assessWildfireExposure year fires)
        (InsuranceRiskAnalystAgent.analyzeHistoricalLosses stats)
        (InsuranceRiskAnalystAgent.evaluateVulnerability zones)).overallScore ≤ 100 ∧
    (InsuranceRiskAnalystAgent.calculateRiskScore rid
        (InsuranceRiskAnalystAgent.assessWildfireExposure year fires)
        (InsuranceRiskAnalystAgent.analyzeHistoricalLosses stats)
        (InsuranceRiskAnalystAgent.evaluateVulnerability zones)).category =
      InsuranceRiskAnalystAgent.scoreToCategory
        (InsuranceRiskAnalystAgent.calculateRiskScore rid
          (InsuranceRiskAnalystAgent.assessWildfireExposure year fires)
          (InsuranceRiskAnalystAgent.analyzeHistoricalLosses stats)
          (InsuranceRiskAnalystAgent.evaluateVulnerability zones)).overallScore := by
  refine ⟨?_, ?_, rfl⟩
  · exact (jsRound_clamp_mem _).1
  · exact (jsRound_clamp_mem _).2

/-- C2 counterexample: for the region with zero fires, zero yearly
statistics and zero zones, the crew Risk Scorer's overall score is 19,
not the 15 stated by the claim. -/
theorem C2_empty_region_counterexample :
    (InsuranceRiskAnalystAgent.calculateRiskScore "empty"
        (InsuranceRiskAnalystAgent.assessWildfireExposure 2026 [])
        (InsuranceRiskAnalystAgent.analyzeHistoricalLosses [])
        (InsuranceRiskAnalystAgent.evaluateVulnerability [])).overallScore = 19 ∧
    ¬ (InsuranceRiskAnalystAgent.calculateRiskScore "empty"
        (InsuranceRiskAnalystAgent.assessWildfireExposure 2026 [])
        (InsuranceRiskAnalystAgent.analyzeHistoricalLosses [])
        (InsuranceRiskAnalystAgent.evaluateVulnerability [])).overallScore = 15 := by
  constructor
  · norm_num [InsuranceRiskAnalystAgent.calculateRiskScore,
      InsuranceRiskAnalystAgent.assessWildfireExposure,
      InsuranceRiskAnalystAgent.analyzeHistoricalLosses,
      InsuranceRiskAnalystAgent.evaluateVulnerability,
      InsuranceRiskAnalystAgent.calculateConfidence, jsRound]
  · norm_num [InsuranceRiskAnalystAgent.calculateRiskScore,
      InsuranceRiskAnalystAgent.assessWildfireExposure,
      InsuranceRiskAnalystAgent.analyzeHistoricalLosses,
      InsuranceRiskAnalystAgent.evaluateVulnerability,
      InsuranceRiskAnalystAgent.calculateConfidence, jsRound]

/-- C2 amended: for a region with zero fires, zero yearly statistics and
zero zones the crew Risk Scorer assigns the floors exposure 10, loss 15,
vulnerability 20, uses the fixed climate score 60, and the resulting
overall score is round(10×0.35 + 15×0.30 + 20×0.25 + 60×0.10) = 19. -/
theorem C2_empty_region_floors (year : ℤ) (rid : String) :
    (InsuranceRiskAnalystAgent.assessWildfireExposure year []).exposureScore = 10 ∧
    (InsuranceRiskAnalystAgent.analyzeHistoricalLosses []).lossScore = 15 ∧
    (InsuranceRiskAnalystAgent.evaluateVulnerability []).vulnerabilityScore = 20 ∧
    (InsuranceRiskAnalystAgent.calculateRiskScore rid
        (InsuranceRiskAnalystAgent.assessWildfireExposure year [])
        (InsuranceRiskAnalystAgent.analyzeHistoricalLosses [])
        (InsuranceRiskAnalystAgent.evaluateVulnerability [])).components.climateProjection = 60 ∧
    (InsuranceRiskAnalystAgent.calculateRiskScore rid
        (InsuranceRiskAnalystAgent.assessWildfireExposure year [])
        (InsuranceRiskAnalystAgent.analyzeHistoricalLosses [])
        (InsuranceRiskAnalystAgent.evaluateVulnerability [])).overallScore = 19 := by
  refine ⟨rfl, rfl, rfl, rfl, ?_⟩
  norm_num [InsuranceRiskAnalystAgent.calculateRiskScore,
    InsuranceRiskAnalystAgent.assessWildfireExposure,
    InsuranceRiskAnalystAgent.analyzeHistoricalLosses,
    InsuranceRiskAnalystAgent.evaluateVulnerability,
    InsuranceRiskAnalystAgent.calculateConfidence, jsRound]

/-- C4 counterexample: on identical (empty) hazard and zoning facts the
pipeline risk_scoring stage yields overall 25 (category moderate) while
the agent crew's Risk Scorer yields overall 19 (category low): the two
paths do not run the same scoring logic. -/
theorem C4_pipeline_agent_divergence :
    (AutomationPipeline.calculateRiskScore 2026 "empty" [] [] []).overallScore = 25 ∧
    (InsuranceRiskAnalystAgent.calculateRiskScore "empty"
        (InsuranceRiskAnalystAgent.assessWildfireExposure 2026 [])
        (InsuranceRiskAnalystAgent.analyzeHistoricalLosses [])
        (InsuranceRiskAnalystAgent.evaluateVulnerability [])).overallScore = 19 ∧
    ¬ ((AutomationPipeline.calculateRiskScore 2026 "empty" [] [] []).overallScore =
        (InsuranceRiskAnalystAgent.calculateRiskScore "empty"
          (InsuranceRiskAnalystAgent.assessWildfireExposure 2026 [])
          (InsuranceRiskAnalystAgent.analyzeHistoricalLosses [])
          (InsuranceRiskAnalystAgent.evaluateVulnerability [])).overallScore) := by
  have hp : (AutomationPipeline.calculateRiskScore 2026 "empty" [] [] []).overallScore = 25 := by
    norm_num [AutomationPipeline.calculateRiskScore,
      AutomationPipeline.calculateWildfireExposure,
      AutomationPipeline.calculateHistoricalLoss,
      AutomationPipeline.calculateVulnerability, jsRound]
  have ha : (InsuranceRiskAnalystAgent.calculateRiskScore "empty"
      (InsuranceRiskAnalystAgent.assessWildfireExposure 2026 [])
      (InsuranceRiskAnalystAgent.analyzeHistoricalLosses [])
      (InsuranceRiskAnalystAgent.evaluateVulnerability [])).overallScore = 19 := by
    norm_num [InsuranceRiskAnalystAgent.calculateRiskScore,
      InsuranceRiskAnalystAgent.assessWildfireExposure,
      InsuranceRiskAnalystAgent.analyzeHistoricalLosses,
      InsuranceRiskAnalystAgent.evaluateVulnerability,
      InsuranceRiskAnalystAgent.calculateConfidence, jsRound]
  refine ⟨hp, ha, ?_⟩
  rw [hp, ha]
  norm_num

/-- C4 amended: both scoring paths use the same category bands, the same
clamp to [0,100], and the same fixed climate (60) and mitigation (20)
components, but their exposure/loss/vulnerability sub-scores differ, so
the two overall scores do not agree in general. -/
theorem C4_shared_band_and_fixed_components :
    (∀ s : ℤ, AutomationPipeline.scoreToCategory s =
      InsuranceRiskAnalystAgent.scoreToCategory s) ∧
    ∀ (year : ℤ) (rid : String) (fires : List WildfirePerimeter)
      (stats : List WildfireStatistics) (zones : List ZoningRegion),
      0 ≤ (AutomationPipeline.calculateRiskScore year rid fires stats zones).overallScore ∧
      (AutomationPipeline.calculateRiskScore year rid fires stats zones).overallScore ≤ 100 ∧
      (AutomationPipeline.calculateRiskScore year rid fires stats zones).category =
        InsuranceRiskAnalystAgent.scoreToCategory
          (AutomationPipeline.calculateRiskScore year rid fires stats zones).overallScore ∧
      (AutomationPipeline.calculateRiskScore year rid fires stats zones).components.climateProjection =
        (InsuranceRiskAnalystAgent.calculateRiskScore rid
          (InsuranceRiskAnalystAgent.assessWildfireExposure year fires)
          (InsuranceRiskAnalystAgent.analyzeHistoricalLosses stats)
          (InsuranceRiskAnalystAgent.evaluateVulnerability zones)).components.climateProjection ∧
      (AutomationPipeline.calculateRiskScore year rid fires stats zones).components.mitigationFactor =
        (InsuranceRiskAnalystAgent.calculateRiskScore rid
          (InsuranceRiskAnalystAgent.assessWildfireExposure year fires)
          (InsuranceRiskAnalystAgent.analyzeHistoricalLosses stats)
          (InsuranceRiskAnalystAgent.evaluateVulnerability zones)).components.mitigationFactor := by
  refine ⟨fun s => rfl, fun year rid fires stats zones => ?_⟩
  exact ⟨(jsRound_clamp_mem _).1, (jsRound_clamp_mem _).2, rfl, rfl, rfl⟩

/-- C5: the paginated WFS fetch never returns more than 50,000 features,
and in the scenario where the cumulative count would reach 50,500 on the
final page (a full page of 49,500 followed by a page of 1,000) exactly
50,000 features are returned; the embedded loop checks the remaining
capacity before appending and appends only the remaining slice. -/
theorem C5_pagination_cap :
    (∀ (pageSize : ℕ) (pages : List (List ℕ)),
      (DataFetcher.fetchWFSPaginated pageSize pages []).length ≤ 50000) ∧
    (DataFetcher.fetchWFSPaginated 49500
        [List.replicate 49500 (0 : ℕ), List.replicate 1000 0] []).length = 50000 := by
  constructor
  · intro pageSize pages
    rw [length_fetchWFSPaginated]
    exact fetchLen_le pageSize _ _ (by norm_num)
  · rw [length_fetchWFSPaginated]
    simp only [List.map_cons, List.map_nil, List.length_replicate, List.length_nil]
    decide

/-- C6: every executed pipeline stage records a StageResult (a thrown
executor records failure with its message), a stage failure does not
prevent later stages, risk_scoring is executed exactly when both
ingestion stages succeeded, and the returned success flag holds exactly
when every recorded stage result succeeded. -/
theorem C6_stage_isolation (wildfire zoning validation scoring reports sync clean : ExecResult) :
    ((AutomationPipeline.runFullPipeline wildfire zoning validation scoring reports sync clean).2.map
        (·.stage) =
      [PipelineStage.pInit, .wildfire_ingestion, .zoning_ingestion, .data_validation] ++
        (if (AutomationPipeline.runStage .wildfire_ingestion wildfire).success &&
            (AutomationPipeline.runStage .zoning_ingestion zoning).success then
          [PipelineStage.risk_scoring] else []) ++
        [PipelineStage.report_generation, .state_sync, .cleanup]) ∧
    (PipelineStage.risk_scoring ∈
        (AutomationPipeline.runFullPipeline wildfire zoning validation scoring reports sync clean).2.map
          (·.stage) ↔
      (AutomationPipeline.runStage .wildfire_ingestion wildfire).success = true ∧
        (AutomationPipeline.runStage .zoning_ingestion zoning).success = true) ∧
    ((AutomationPipeline.runFullPipeline wildfire zoning validation scoring reports sync clean).1 = true ↔
      ∀ r ∈ (AutomationPipeline.runFullPipeline wildfire zoning validation scoring reports sync clean).2,
        r.success = true) ∧
    (∀ (st : PipelineStage) (msg : String),
      AutomationPipeline.runStage st (.thrown msg) =
        { stage := st, success := false, recordsProcessed := 0, errors := [msg], warnings := [] }) := by
  refine ⟨?_, ?_, ?_, fun st msg => rfl⟩
  · by_cases h1 : (AutomationPipeline.runStage .wildfire_ingestion wildfire).success <;>
      by_cases h2 : (AutomationPipeline.runStage .zoning_ingestion zoning).success <;>
      simp [AutomationPipeline.runFullPipeline, h1, h2]
  · by_cases h1 : (AutomationPipeline.runStage .wildfire_ingestion wildfire).success <;>
      by_cases h2 : (AutomationPipeline.runStage .zoning_ingestion zoning).success <;>
      simp [AutomationPipeline.runFullPipeline, h1, h2]
  · exact List.all_eq_true

/-! ## RegionStore ranking lemmas -/

namespace StateManager

theorem map_insertDesc (x : String × String × ℤ) (l : List (String × String × ℤ)) :
    (insertDesc x l).map (fun q => q.2.2) = insertDescZ x.2.2 (l.map (fun q => q.2.2)) := by
  induction l with
  | nil => rfl
  | cons y ys ih =>
      by_cases hy : y.2.2 ≤ x.2.2
      · simp [insertDesc, insertDescZ, hy]
      · simp [insertDesc, insertDescZ, hy, ih]

theorem map_sortDesc (l : List (String × String × ℤ)) :
    (sortDesc l).map (fun q => q.2.2) = sortDescZ (l.map (fun q => q.2.2)) := by
  induction l with
  | nil => rfl
  | cons x xs ih => simp [sortDesc, sortDescZ, map_insertDesc, ih]

theorem scoreRank_assignRanks (l : List (String × String × ℤ)) :
    ∀ n : ℕ, (assignRanks n l).map (fun e => (e.score, e.rank)) =
      assignRanksZ n (l.map (fun q => q.2.2)) := by
  induction l with
  | nil => intro n; rfl
  | cons hd tl ih =>
      obtain ⟨rid, rname, s⟩ := hd
      intro n
      simp [assignRanks, assignRanksZ, ih (n + 1)]

theorem scoreRank_computeRankings (regions : List (String × Region)) :
    (computeRankings regions).map (fun e => (e.score, e.rank)) =
      assignRanksZ 1 (sortDescZ (scoresOf regions)) := by
  rw [computeRankings, scoreRank_assignRanks, map_sortDesc]
  have hmap : (regions.filterMap
      (fun q => q.2.riskScore.map
        (fun s => (q.2.regionId, q.2.regionName, s.overallScore)))).map
          (fun q => q.2.2) = scoresOf regions := by
    rw [List.map_filterMap, scoresOf]
    congr 1
    funext q
    cases hq : q.2.riskScore <;> rfl
  rw [hmap]

theorem length_insertDescZ (x : ℤ) (l : List ℤ) :
    (insertDescZ x l).length = l.length + 1 := by
  induction l with
  | nil => rfl
  | cons y ys ih =>
      by_cases hy : y ≤ x
      · simp [insertDescZ, hy]
      · simp [insertDescZ, hy, ih]

theorem length_sortDescZ (l : List ℤ) : (sortDescZ l).length = l.length := by
  induction l with
  | nil => rfl
  | cons x xs ih => simp [sortDescZ, length_insertDescZ, ih]

theorem length_assignRanksZ (l : List ℤ) :
    ∀ n : ℕ, (assignRanksZ n l).length = l.length := by
  induction l with
  | nil => intro n; rfl
  | cons s t ih => intro n; simp [assignRanksZ, ih (n + 1)]

theorem length_scoresOf (regions : List (String × Region)) :
    (scoresOf regions).length =
      (regions.filter (fun q => q.2.riskScore.isSome)).length := by
  induction regions with
  | nil => rfl
  | cons hd tl ih =>
      obtain ⟨k, r⟩ := hd
      cases hr : r.riskScore with
      | none => simpa [scoresOf, List.filterMap_cons, hr, List.filter_cons] using ih
      | some s => simpa [scoresOf, List.filterMap_cons, hr, List.filter_cons] using ih

theorem mem_insertDescZ (y x : ℤ) (l : List ℤ) :
    y ∈ insertDescZ x l ↔ y = x ∨ y ∈ l := by
  induction l with
  | nil => simp [insertDescZ]
  | cons z zs ih =>
      by_cases hz : z ≤ x
      · simp [insertDescZ, hz]
      · simp only [insertDescZ, hz, if_false, List.mem_cons, ih]
        tauto

theorem pairwise_insertDescZ (x : ℤ) (l : List ℤ)
    (h : l.Pairwise (fun a b => b ≤ a)) :
    (insertDescZ x l).Pairwise (fun a b => b ≤ a) := by
  induction l with
  | nil => simp [insertDescZ]
  | cons y ys ih =>
      rcases List.pairwise_cons.mp h with ⟨hy, hys⟩
      by_cases hle : y ≤ x
      · simp only [insertDescZ, hle, if_true]
        refine List.pairwise_cons.mpr ⟨?_, h⟩
        intro z hz
        rcases List.mem_cons.mp hz with rfl | hz
        · exact hle
        · exact le_trans (hy z hz) hle
      · simp only [insertDescZ, hle, if_false]
        refine List.pairwise_cons.mpr ⟨?_, ih hys⟩
        intro z hz
        rcases (mem_insertDescZ z x ys).mp hz with rfl | hz
        · exact le_of_lt (lt_of_not_le hle)
        · exact hy z hz

theorem pairwise_sortDescZ (l : List ℤ) :
    (sortDescZ l).Pairwise (fun a b => b ≤ a) := by
  induction l with
  | nil => simp [sortDescZ]
  | cons x xs ih => exact pairwise_insertDescZ x (sortDescZ xs) ih

theorem fst_assignRanksZ (l : List ℤ) :
    ∀ n : ℕ, (assignRanksZ n l).map Prod.fst = l := by
  induction l with
  | nil => intro n; rfl
  | cons s t ih => intro n; simp [assignRanksZ, ih (n + 1)]

theorem snd_assignRanksZ (l : List ℤ) :
    ∀ n : ℕ, (assignRanksZ n l).map Prod.snd = List.range' n l.length := by
  induction l with
  | nil => intro n; rfl
  | cons s t ih =>
      intro n
      simp only [assignRanksZ, List.map_cons, List.length_cons, List.range'_succ]
      rw [ih (n + 1)]

theorem scoresOf_updateAssoc (id : String) (p : RegionPartial)
    (regions : List (String × Region))
    (hmerge : ∀ pr, regions.find? (fun q => q.1 = id) = some pr →
      (mergeRegion pr.2 p).riskScore = pr.2.riskScore)
    (hnew : regions.find? (fun q => q.1 = id) = none →
      (createDefaultRegionState id p).riskScore = none) :
    scoresOf (updateAssoc id p regions) = scoresOf regions := by
  induction regions with
  | nil =>
      have h0 := hnew rfl
      simp [updateAssoc, scoresOf, h0]
  | cons hd tl ih =>
      obtain ⟨k, r⟩ := hd
      by_cases hk : k = id
      · have hfind : ((k, r) :: tl).find? (fun q => q.1 = id) = some (k, r) :=
          List.find?_cons_of_pos _ (by simp [hk])
        have hmm := hmerge (k, r) hfind
        simp [updateAssoc, hk, scoresOf, List.filterMap_cons, hmm]
      · have hfind : ((k, r) :: tl).find? (fun q => q.1 = id) =
            tl.find? (fun q => q.1 = id) :=
          List.find?_cons_of_neg _ (by simp [hk])
        simp only [updateAssoc, hk, if_false, scoresOf, List.filterMap_cons]
        have ih' := ih (fun pr hpr => hmerge pr (by rw [hfind]; exact hpr))
          (fun hn => hnew (by rw [hfind]; exact hn))
        simp only [scoresOf] at ih'
        rw [ih']

theorem rankOK_setRegion_preserving (st : Store) (id : String) (p : RegionPartial)
    (hmerge : ∀ pr, st.regions.find? (fun q => q.1 = id) = some pr →
      (mergeRegion pr.2 p).riskScore = pr.2.riskScore)
    (hnew : st.regions.find? (fun q => q.1 = id) = none →
      (createDefaultRegionState id p).riskScore = none)
    (h : RankOK st) : RankOK (setRegion st id p) := by
  simp only [RankOK, setRegion, emitEvent] at h ⊢
  rw [scoresOf_updateAssoc id p st.regions hmerge hnew]
  exact h

end StateManager

theorem rankOK_applyOp (st : Store) (op : StoreOp) (hop : scoreWriteOK op = true)
    (h : RankOK st) : RankOK (applyOp st op) := by
  cases op with
  | setRegion id p =>
      have hpn : p.riskScore = none :=
        Option.isNone_iff_eq_none.mp (by simpa [scoreWriteOK] using hop)
      refine StateManager.rankOK_setRegion_preserving st id p ?_ ?_ h
      · intro pr _
        simp [StateManager.mergeRegion, hpn]
      · intro _
        simp [StateManager.createDefaultRegionState, hpn]
  | updateHazard id fires stats =>
      simp only [applyOp, StateManager.updateRegionHazardData]
      cases hg : StateManager.getRegion st id with
      | none =>
          refine StateManager.rankOK_setRegion_preserving _ _ _ ?_ ?_ h
          · intro pr hpr
            exfalso
            simp [StateManager.getRegion, hpr] at hg
          · intro _
            simp [StateManager.createDefaultRegionState, StateManager.toPartial]
      | some r0 =>
          refine StateManager.rankOK_setRegion_preserving _ _ _ ?_ ?_ h
          · intro pr hpr
            have hpr2 : pr.2 = r0 := by
              simp only [StateManager.getRegion, hpr, Option.map_some'] at hg
              exact Option.some.inj hg
            simp [StateManager.mergeRegion, StateManager.toPartial, hpr2]
          · intro hn
            exfalso
            simp [StateManager.getRegion, hn] at hg
  | updateZoning id zones =>
      simp only [applyOp, StateManager.updateRegionZoningData]
      cases hg : StateManager.getRegion st id with
      | none =>
          refine StateManager.rankOK_setRegion_preserving _ _ _ ?_ ?_ h
          · intro pr hpr
            exfalso
            simp [StateManager.getRegion, hpr] at hg
          · intro _
            simp [StateManager.createDefaultRegionState, StateManager.toPartial]
      | some r0 =>
          refine StateManager.rankOK_setRegion_preserving _ _ _ ?_ ?_ h
          · intro pr hpr
            have hpr2 : pr.2 = r0 := by
              simp only [StateManager.getRegion, hpr, Option.map_some'] at hg
              exact Option.some.inj hg
            simp [StateManager.mergeRegion, StateManager.toPartial, hpr2]
          · intro hn
            exfalso
            simp [StateManager.getRegion, hn] at hg
  | updateRiskScore id score =>
      simp only [applyOp, StateManager.updateRegionRiskScore]
      cases hg : StateManager.getRegion st id with
      | none => exact h
      | some r0 =>
          simp only [RankOK, StateManager.updateGlobalRankings]
          exact StateManager.scoreRank_computeRankings _
  | addReport id report =>
      simp only [applyOp, StateManager.addReport]
      cases hg : StateManager.getRegion st id with
      | none => exact h
      | some r0 =>
          refine StateManager.rankOK_setRegion_preserving _ _ _ ?_ ?_ h
          · intro pr hpr
            have hpr2 : pr.2 = r0 := by
              simp only [StateManager.getRegion, hpr, Option.map_some'] at hg
              exact Option.some.inj hg
            simp [StateManager.mergeRegion, StateManager.toPartial, hpr2]
          · intro hn
            exfalso
            simp [StateManager.getRegion, hn] at hg
  | addConclusion id c =>
      simp only [applyOp, StateManager.addAgentConclusion]
      cases hg : StateManager.getRegion st id with
      | none => exact h
      | some r0 =>
          refine StateManager.rankOK_setRegion_preserving _ _ _ ?_ ?_ h
          · intro pr hpr
            have hpr2 : pr.2 = r0 := by
              simp only [StateManager.getRegion, hpr, Option.map_some'] at hg
              exact Option.some.inj hg
            simp [StateManager.mergeRegion, StateManager.toPartial, hpr2]
          · intro hn
            exfalso
            simp [StateManager.getRegion, hn] at hg
  | emitEvent e rid => exact h
  | reset => rfl

theorem rankOK_applyOps (ops : List StoreOp) :
    ∀ st : Store, (∀ op ∈ ops, scoreWriteOK op = true) → RankOK st →
      RankOK (applyOps st ops) := by
  induction ops with
  | nil => intro st _ h; exact h
  | cons op rest ih =>
      intro st hops h
      exact ih _ (fun o ho => hops o (List.mem_cons_of_mem _ ho))
        (rankOK_applyOp st op (hops op (List.mem_cons_self _ _)) h)

/-- C7 counterexample: a riskScore written through the generic setRegion
is stored on the region but the ranking table is not recomputed, so the
table length differs from the scored-region count. -/
theorem C7_setRegion_riskScore_counterexample :
    (applyOps StateManager.emptyStore
      [StoreOp.setRegion "a" { riskScore := some (some (sampleScore "a")) }]).rankings.length = 0 ∧
    ((applyOps StateManager.emptyStore
      [StoreOp.setRegion "a" { riskScore := some (some (sampleScore "a")) }]).regions.filter
        (fun q => q.2.riskScore.isSome)).length = 1 ∧
    ¬ ((applyOps StateManager.emptyStore
        [StoreOp.setRegion "a" { riskScore := some (some (sampleScore "a")) }]).rankings.length =
      ((applyOps StateManager.emptyStore
        [StoreOp.setRegion "a" { riskScore := some (some (sampleScore "a")) }]).regions.filter
          (fun q => q.2.riskScore.isSome)).length) := by
  refine ⟨rfl, rfl, by decide⟩

/-- C7 amended: after any sequence of store operations in which no
setRegion partial carries a riskScore (every score write goes through
updateRiskScore, as every repository caller does), the global ranking
table has one entry per region with a non-null riskScore, its entries
are ordered by descending score, and each entry's rank is its 1-based
position in that order. -/
theorem C7_ranking_table_invariant (ops : List StoreOp)
    (h : ∀ op ∈ ops, scoreWriteOK op = true) :
    ((applyOps StateManager.emptyStore ops).rankings.length =
      ((applyOps StateManager.emptyStore ops).regions.filter
        (fun q => q.2.riskScore.isSome)).length) ∧
    (applyOps StateManager.emptyStore ops).rankings.Pairwise
      (fun a b => b.score ≤ a.score) ∧
    (applyOps StateManager.emptyStore ops).rankings.map (·.rank) =
      List.range' 1 (applyOps StateManager.emptyStore ops).rankings.length := by
  have hro : RankOK (applyOps StateManager.emptyStore ops) :=
    rankOK_applyOps ops StateManager.emptyStore h rfl
  rw [RankOK] at hro
  have hlen : (applyOps StateManager.emptyStore ops).rankings.length =
      (StateManager.scoresOf (applyOps StateManager.emptyStore ops).regions).length := by
    have hl := congrArg List.length hro
    simpa [StateManager.length_assignRanksZ, StateManager.length_sortDescZ] using hl
  have hscores : (applyOps StateManager.emptyStore ops).rankings.map (fun e => e.score) =
      StateManager.sortDescZ
        (StateManager.scoresOf (applyOps StateManager.emptyStore ops).regions) := by
    have hf := congrArg (List.map Prod.fst) hro
    simpa [List.map_map, Function.comp, StateManager.fst_assignRanksZ] using hf
  have hranks : (applyOps StateManager.emptyStore ops).rankings.map (fun e => e.rank) =
      List.range' 1
        (StateManager.scoresOf (applyOps StateManager.emptyStore ops).regions).length := by
    have hs := congrArg (List.map Prod.snd) hro
    simpa [List.map_map, Function.comp, StateManager.snd_assignRanksZ,
      StateManager.length_sortDescZ] using hs
  refine ⟨?_, ?_, ?_⟩
  · rw [hlen, StateManager.length_scoresOf]
  · have hp : ((applyOps StateManager.emptyStore ops).rankings.map
        (fun e => e.score)).Pairwise (fun a b => b ≤ a) := by
      rw [hscores]
      exact StateManager.pairwise_sortDescZ _
    exact List.pairwise_map.mp hp
  · rw [hlen]
    exact hranks

/-- C7 witness: the two-operation sequence creating region a and then
scoring it through updateRiskScore satisfies the restriction, and its
ranking table satisfies the invariant. -/
theorem C7_ranking_table_invariant_witness :
    (∀ op ∈ demoOps, scoreWriteOK op = true) ∧
    (((applyOps StateManager.emptyStore demoOps).rankings.length =
      ((applyOps StateManager.emptyStore demoOps).regions.filter
        (fun q => q.2.riskScore.isSome)).length) ∧
    (applyOps StateManager.emptyStore demoOps).rankings.Pairwise
      (fun a b => b.score ≤ a.score) ∧
    (applyOps StateManager.emptyStore demoOps).rankings.map (·.rank) =
      List.range' 1 (applyOps StateManager.emptyStore demoOps).rankings.length) :=
  ⟨by decide, C7_ranking_table_invariant demoOps (by decide)⟩

/-! ## Crew lemmas and remaining claim theorems -/

/-- analyzeRegion resets its accumulators first, so its entire outcome is
independent of the incoming agent state. -/
theorem analyzeRegion_state_independent (year : ℤ) (st : Store) (id : String)
    (ag ag' : InsuranceRiskAnalystAgent.AgentState) :
    InsuranceRiskAnalystAgent.analyzeRegion year ag st id =
      InsuranceRiskAnalystAgent.analyzeRegion year ag' st id := rfl

/-- C3: after a run on region A, the run on region B returns exactly the
outcome of a run on B with any other (for instance fresh) agent state —
no conclusion produced during A's run can leak into it — and the second
of two runs on A produces a conclusion list of the same length as a
single fresh run on the same state. -/
theorem C3_fresh_conclusions (year : ℤ) (st : Store) (A B : String)
    (ag agFresh : InsuranceRiskAnalystAgent.AgentState) :
    (InsuranceRiskAnalystAgent.analyzeRegion year
        (InsuranceRiskAnalystAgent.analyzeRegion year ag st A).2.1
        (InsuranceRiskAnalystAgent.analyzeRegion year ag st A).2.2 B =
      InsuranceRiskAnalystAgent.analyzeRegion year agFresh
        (InsuranceRiskAnalystAgent.analyzeRegion year ag st A).2.2 B) ∧
    (conclusionsOf (InsuranceRiskAnalystAgent.analyzeRegion year
        (InsuranceRiskAnalystAgent.analyzeRegion year ag st A).2.1
        (InsuranceRiskAnalystAgent.analyzeRegion year ag st A).2.2 A).1).length =
      (conclusionsOf (InsuranceRiskAnalystAgent.analyzeRegion year agFresh
        (InsuranceRiskAnalystAgent.analyzeRegion year ag st A).2.2 A).1).length :=
  ⟨rfl, rfl⟩

/-- C8: running the crew on a region id that is not in the store fails
with the not-found error, returns no stage output, and leaves the store
(and the agents) exactly as they were: no write of any kind occurred. -/
theorem C8_crew_not_found (year : ℤ) (ag : CrewAgents) (st : Store) (id : String)
    (h : StateManager.getRegion st id = none) :
    runCrew year ag st id = (.error (.notFound id), ag, st) := by
  unfold runCrew
  rw [h]

/-- C8 witness: the empty store has no region "missing" and the crew run
on it fails leaving the store untouched. -/
theorem C8_crew_not_found_witness :
    StateManager.getRegion StateManager.emptyStore "missing" = none ∧
    runCrew 2026 crewInit StateManager.emptyStore "missing" =
      (.error (.notFound "missing"), crewInit, StateManager.emptyStore) :=
  ⟨rfl, C8_crew_not_found 2026 crewInit StateManager.emptyStore "missing" rfl⟩

/-- C9: for every stored region list and every type filter (absent,
municipality, fire_centre, or any other string) the regions route
response satisfies counts.total = regions.length. -/
theorem C9_counts_total (storeRegions : List Region) (typeFilter : Option String) :
    (regionsRouteGET storeRegions typeFilter).counts.total =
      (regionsRouteGET storeRegions typeFilter).regions.length := rfl

/-- On a successful run the orchestrator pushes each agent's full message
history: the data analyst and mitigation strategist histories grow by one
message while the risk scorer's is reset to its single fresh message, and
the communication log is their concatenation. -/
theorem runCrew_ok_shape (year : ℤ) (ag : CrewAgents) (st : Store) (id : String)
    (region : Region) (h : StateManager.getRegion st id = some region) :
    ∃ dm im mm,
      (runCrew year ag st id).2.1.dataAnalystHistory = ag.dataAnalystHistory ++ [dm] ∧
      (runCrew year ag st id).2.1.insuranceState.messageHistory = [im] ∧
      (runCrew year ag st id).2.1.mitigationHistory = ag.mitigationHistory ++ [mm] ∧
      crewLog (runCrew year ag st id).1 =
        (ag.dataAnalystHistory ++ [dm]) ++ [im] ++ (ag.mitigationHistory ++ [mm]) := by
  simp only [runCrew, h, InsuranceRiskAnalystAgent.analyzeRegion,
    DataAnalystAgent.execute, MitigationStrategistAgent.execute, crewLog]
  exact ⟨_, _, _, rfl, rfl, rfl, rfl⟩

/-- C10: the validator's and strategist's message histories persist
across runs, so a second successful crew run's communication log contains
every message those two agents hold from the first run plus the three
fresh messages; only the risk scorer's history is reset per invocation. -/
theorem C10_crew_history_accumulation (year : ℤ) (ag0 : CrewAgents) (st0 : Store)
    (A B : String) (rA rB : Region)
    (hA : StateManager.getRegion st0 A = some rA)
    (hB : StateManager.getRegion (runCrew year ag0 st0 A).2.2 B = some rB) :
    (∀ m ∈ (runCrew year ag0 st0 A).2.1.dataAnalystHistory,
        m ∈ crewLog (runCrew year (runCrew year ag0 st0 A).2.1
          (runCrew year ag0 st0 A).2.2 B).1) ∧
    (∀ m ∈ (runCrew year ag0 st0 A).2.1.mitigationHistory,
        m ∈ crewLog (runCrew year (runCrew year ag0 st0 A).2.1
          (runCrew year ag0 st0 A).2.2 B).1) ∧
    (crewLog (runCrew year (runCrew year ag0 st0 A).2.1
        (runCrew year ag0 st0 A).2.2 B).1).length =
      (runCrew year ag0 st0 A).2.1.dataAnalystHistory.length +
        (runCrew year ag0 st0 A).2.1.mitigationHistory.length + 3 ∧
    (runCrew year (runCrew year ag0 st0 A).2.1
        (runCrew year ag0 st0 A).2.2 B).2.1.insuranceState.messageHistory.length = 1 := by
  obtain ⟨dm, im, mm, hda, hia, hms, hlog⟩ :=
    runCrew_ok_shape year (runCrew year ag0 st0 A).2.1 (runCrew year ag0 st0 A).2.2 B rB hB
  refine ⟨?_, ?_, ?_, ?_⟩
  · intro m hm
    rw [hlog]
    simp only [List.mem_append]
    exact Or.inl (Or.inl (Or.inl hm))
  · intro m hm
    rw [hlog]
    simp only [List.mem_append]
    exact Or.inr (Or.inl hm)
  · rw [hlog]
    simp only [List.length_append, List.length_singleton]
    omega
  · rw [hia]
    rfl

/-- C10 witness: on a store with two empty-data regions a and b, running
the crew on a and then on b exhibits the accumulated communication log. -/
theorem C10_crew_history_accumulation_witness :
    StateManager.getRegion demoStore "a" = some (demoRegion "a" "Alpha") ∧
    StateManager.getRegion (runCrew 2026 crewInit demoStore "a").2.2 "b" =
      some (demoRegion "b" "Beta") ∧
    ((∀ m ∈ (runCrew 2026 crewInit demoStore "a").2.1.dataAnalystHistory,
        m ∈ crewLog (runCrew 2026 (runCrew 2026 crewInit demoStore "a").2.1
          (runCrew 2026 crewInit demoStore "a").2.2 "b").1) ∧
    (∀ m ∈ (runCrew 2026 crewInit demoStore "a").2.1.mitigationHistory,
        m ∈ crewLog (runCrew 2026 (runCrew 2026 crewInit demoStore "a").2.1
          (runCrew 2026 crewInit demoStore "a").2.2 "b").1) ∧
    (crewLog (runCrew 2026 (runCrew 2026 crewInit demoStore "a").2.1
        (runCrew 2026 crewInit demoStore "a").2.2 "b").1).length =
      (runCrew 2026 crewInit demoStore "a").2.1.dataAnalystHistory.length +
        (runCrew 2026 crewInit demoStore "a").2.1.mitigationHistory.length + 3 ∧
    (runCrew 2026 (runCrew 2026 crewInit demoStore "a").2.1
        (runCrew 2026 crewInit demoStore "a").2.2 "b").2.1.insuranceState.messageHistory.length = 1) :=
  ⟨rfl, rfl,
   C10_crew_history_accumulation 2026 crewInit demoStore "a" "b"
     (demoRegion "a" "Alpha") (demoRegion "b" "Beta") rfl rfl⟩
